import Mathlib

/-!
# Pixel Garden — verified model of the simulation core

A shallow embedding of the game-state simulation engine of the
pixel-garden repository: the data model (`GameState`, `PlotTile`), the
static upgrade and event catalogs, the pure catalog functions
(`getUpgradeCost`, `getUpgradeEffect`, `getUpgradeMilestoneRequirement`),
the tick engine (`gameTick`), the action resolver (`handleAction`,
`canAffordUpgrade`, `handleBuyUpgrade`) and the saved-game merge
(`loadSavedGame`).

Modelling conventions:
* JavaScript numbers are modelled as exact rationals (`ℚ`); all the
  quantities the source manipulates stay well inside the range where
  float and rational arithmetic agree on the operations used.
* The wall clock (`Date.now()`) is an explicit `now : Nat` argument
  (milliseconds), and `Math.random()` is an explicit stream of draws
  (`Rng`, a list of rationals consumed front to back; an exhausted
  stream draws `1`, i.e. every probability roll fails).  The spec itself
  mandates that randomness and the wall clock be injected capabilities.
* The log sink (`addLog` / `logWithThrottle`) is modelled by returning
  the list of messages the core emits; display throttling and
  deduplication are presentation concerns outside the core.
* A JavaScript runtime error (reading `.level` of `undefined` for an
  upgrade id that has no entry) is modelled by `Option`: `none` is a
  thrown `TypeError`.
-/

/-- The four seasons (source: `types.ts` `Season`). -/
inductive Season where
  | spring
  | summer
  | autumn
  | winter
  deriving Repr, DecidableEq

/-- One cell of the garden plot (source: `types.ts` `PlotTile`).
`rareExpiresAt` is a wall-clock deadline in milliseconds. -/
structure PlotTile where
  id : Nat
  hasTree : Bool
  isWithered : Bool
  seedsGenerated : ℚ
  isGolden : Bool
  isDiamond : Bool
  rareExpiresAt : Option Nat
  deriving Repr, DecidableEq

/-- Player preferences (source: `types.ts` `Preferences`). -/
structure Preferences where
  reducedMotion : Bool
  compactLogs : Bool
  seasonTips : Bool
  classicActionsUI : Bool
  classicUpgradesUI : Bool
  disableConfetti : Bool
  disableParticles : Bool
  effectsVolume : ℚ
  deriving Repr, DecidableEq

/-- Permanent milestone bonuses (source: `types.ts` `MilestoneBonuses`). -/
structure MilestoneBonuses where
  gatherBonus : ℚ
  deriving Repr, DecidableEq

/-- The `resources` map; the only resource kind is `seeds`. -/
structure Resources where
  seeds : ℚ
  deriving Repr, DecidableEq

/-- The `costs` record of the game state. -/
structure Costs where
  tree : ℚ
  deriving Repr, DecidableEq

/-- Current level of every catalog upgrade.  The source keeps these in a
string-keyed object that is initialised with exactly these seventeen
ids; known ids are accessed as fields (`upgrades.autoPlanter.level`),
dynamic access is `levelOf`. -/
structure UpgradeLevels where
  gloves : Nat
  shovel : Nat
  confettiCannon : Nat
  composter : Nat
  betterSoil : Nat
  cleanseSoil : Nat
  fertilizer : Nat
  sprinklers : Nat
  sunCore : Nat
  expandPlot : Nat
  seedVault : Nat
  greenhouse : Nat
  autoPlanter : Nat
  autoShovel : Nat
  weatherStation : Nat
  stormSatellite : Nat
  gnomeInterns : Nat
  deriving Repr, DecidableEq

/-- The root game-state aggregate (source: `types.ts` `GameState`).
`loggedMilestones` and `notifiedAvailable` are insertion-ordered
string-keyed boolean maps, modelled as association lists. -/
structure GameState where
  resources : Resources
  upgrades : UpgradeLevels
  plot : List PlotTile
  treeLifespanSeeds : ℚ
  costs : Costs
  totalTreesPlanted : Nat
  loggedMilestones : List (String × Bool)
  notifiedAvailable : List (String × Bool)
  currentSeason : Season
  autoPlanterCooldown : ℚ
  autoShovelCooldown : ℚ
  seasonDuration : ℚ
  peakSeeds : ℚ
  preferences : Preferences
  milestoneBonuses : MilestoneBonuses
  deriving Repr, DecidableEq

/-- A stream of `Math.random()` draws, consumed front to back. -/
abbrev Rng := List ℚ

/-- Draw the next random number.  An exhausted stream yields `1`, which
makes every probability roll (`random() < p` for `p ≤ 1`,
`random()*100 < chance` for `chance ≤ 100`) fail. -/
def rngNext : Rng → ℚ × Rng
  | [] => (1, [])
  | q :: rest => (q, rest)

/-- Read a truthy boolean out of a string-keyed map: a missing key is
`undefined`, hence falsy. -/
def lookupFlag (m : List (String × Bool)) (k : String) : Bool :=
  (m.lookup k).getD false

/-- JavaScript object assignment `m[k] = b`: an existing key keeps its
position and gets the new value, a new key is appended. -/
def setFlag (m : List (String × Bool)) (k : String) (b : Bool) : List (String × Bool) :=
  if (m.lookup k).isSome then
    m.map (fun p => if p.1 = k then (k, b) else p)
  else
    m ++ [(k, b)]

/-- Replace the first tile satisfying `p` by its image under `f`
(models in-place mutation of the tile returned by `plot.find`). -/
def updateFirstWhere (p : PlotTile → Bool) (f : PlotTile → PlotTile) :
    List PlotTile → List PlotTile
  | [] => []
  | t :: ts => if p t then f t :: ts else t :: updateFirstWhere p f ts

/-- Replace the tile at list index `i` by its image under `f`. -/
def updateAtIdx (i : Nat) (f : PlotTile → PlotTile) :
    List PlotTile → List PlotTile
  | [] => []
  | t :: ts =>
    match i with
    | 0 => f t :: ts
    | n + 1 => t :: updateAtIdx n f ts

/- ### Constants (source: `constants.ts`) -/

def INITIAL_PLOT_SIZE : Nat := 16

def TREE_LIFESPAN_SEEDS : ℚ := 60

def PLANTING_MILESTONES : List Nat :=
  [1, 100, 500, 700, 800, 1000, 3000, 4000, 5000, 7000, 10000]

def SEASON_DURATION : ℚ := 300

def GOLDEN_TREE_DURATION_MS : Nat := 30000

def DIAMOND_TREE_DURATION_MS : Nat := 60000

/-- One entry of the milestone reward table. -/
inductive MilestoneReward where
  | gatherBonus (amount : ℚ) (message : String)
  | unlockUpgrade (upgradeId : String) (message : String)
  deriving Repr, DecidableEq

/-- `MILESTONE_REWARDS`, keyed by planted-tree count. -/
def MILESTONE_REWARDS : List (Nat × List MilestoneReward) :=
  [ (130, [MilestoneReward.gatherBonus 1
      "Milestone perk: manual gathering now yields +1 extra seed."]),
    (500, [MilestoneReward.unlockUpgrade "sunCore"
      "Sun Core upgrade unlocked! Solar powered clicks! :O"]),
    (720, [MilestoneReward.unlockUpgrade "seedVault"
      "Seed Vault upgrade unlocked!"]),
    (850, [MilestoneReward.unlockUpgrade "gnomeInterns"
      "Gnome Interns unlocked! The little dudes work for snacks."]),
    (1000, [MilestoneReward.unlockUpgrade "greenhouse"
      "Greenhouse upgrade unlocked! Extend tree lifespan.",
      MilestoneReward.gatherBonus 1
      "Milestone perk: another +1 manual gather bonus."]),
    (3500, [MilestoneReward.unlockUpgrade "stormSatellite"
      "Storm Satellite upgrade unlocked! Higher event chances!"]) ]

/-- Per-season production multiplier. -/
def SEASON_MULTIPLIERS : Season → ℚ
  | Season.spring => 5
  | Season.summer => 2
  | Season.autumn => 3
  | Season.winter => 1

/-- Season tips shown in the log when `seasonTips` is enabled. -/
def SEASON_TIPS : Season → String
  | Season.spring => "Spring is the rarest event with a 5x multiplier :p"
  | Season.summer => "Summer is steady. Use the downtime to save seeds and prep upgrades."
  | Season.autumn => "Autumn rewards planning with a 3x bonus - clear withered trees early."
  | Season.winter => "Winter slows production. Lean on manual gathering and compost."

/- ### Upgrade catalog -/

/-- One catalog upgrade definition (source: `types.ts`
`UpgradeDefinition`; display description omitted — presentation only). -/
structure UpgradeDef where
  id : String
  name : String
  category : String
  baseCost : ℚ
  costExponent : ℚ
  baseEffect : ℚ
  effectFormula : Nat → ℚ → ℚ
  requiresMilestone : Option Nat
  perLevelMilestoneProgression : Bool
  levelMilestones : List (Nat × Nat)

/-- The upgrade catalog, in declaration order (source: `constants.ts`
`UPGRADES`; `Object.values` iterates in this order). -/
def UPGRADES : List UpgradeDef :=
  [ { id := "gloves", name := "Gardening Gloves", category := "Tools",
      baseCost := 50, costExponent := 2.2, baseEffect := 1,
      effectFormula := fun level base => 1 + (level : ℚ) * base,
      requiresMilestone := none, perLevelMilestoneProgression := false,
      levelMilestones := [] },
    { id := "shovel", name := "Shovel", category := "Tools",
      baseCost := 350, costExponent := 2.5, baseEffect := 5,
      effectFormula := fun level base => (level : ℚ) * base,
      requiresMilestone := none, perLevelMilestoneProgression := false,
      levelMilestones := [] },
    { id := "confettiCannon", name := "Confetti Cannon", category := "Tools",
      baseCost := 6000, costExponent := 2.4, baseEffect := 5,
      effectFormula := fun level base => min 45 ((level : ℚ) * base),
      requiresMilestone := none, perLevelMilestoneProgression := false,
      levelMilestones := [] },
    { id := "composter", name := "Composter", category := "Cultivation",
      baseCost := 800, costExponent := 1.8, baseEffect := 10,
      effectFormula := fun level base => (level : ℚ) * base,
      requiresMilestone := none, perLevelMilestoneProgression := false,
      levelMilestones := [] },
    { id := "betterSoil", name := "Better Soil", category := "Cultivation",
      baseCost := 500, costExponent := 1.6, baseEffect := 1,
      effectFormula := fun level base => 1 + (level : ℚ) * base,
      requiresMilestone := none, perLevelMilestoneProgression := false,
      levelMilestones := [] },
    { id := "cleanseSoil", name := "Cleanse Soil", category := "Cultivation",
      baseCost := 800, costExponent := 2.1, baseEffect := 15,
      effectFormula := fun level base => (level : ℚ) * base,
      requiresMilestone := none, perLevelMilestoneProgression := false,
      levelMilestones := [] },
    { id := "fertilizer", name := "Fertilizer", category := "Cultivation",
      baseCost := 2500, costExponent := 2.8, baseEffect := 2,
      effectFormula := fun level base => max 0 ((level : ℚ) * base - 1),
      requiresMilestone := none, perLevelMilestoneProgression := false,
      levelMilestones := [(7, 700)] },
    { id := "sprinklers", name := "Sprinklers", category := "Cultivation",
      baseCost := 1800, costExponent := 2.45, baseEffect := 6,
      effectFormula := fun level base => min 60 ((level : ℚ) * base),
      requiresMilestone := none, perLevelMilestoneProgression := false,
      levelMilestones := [(2, 800)] },
    { id := "sunCore", name := "Sun Core", category := "Cultivation",
      baseCost := 4200, costExponent := 2.6, baseEffect := 1,
      effectFormula := fun level base => (level : ℚ) * base,
      requiresMilestone := some 500, perLevelMilestoneProgression := true,
      levelMilestones := [] },
    { id := "expandPlot", name := "Expand Plot", category := "Expansion",
      baseCost := 2000, costExponent := 2.5, baseEffect := 2,
      effectFormula := fun _ base => base,
      requiresMilestone := none, perLevelMilestoneProgression := false,
      levelMilestones := [] },
    { id := "seedVault", name := "Seed Vault", category := "Expansion",
      baseCost := 3200, costExponent := 2.9, baseEffect := 0.5,
      effectFormula := fun level base => min 4 ((level : ℚ) * base),
      requiresMilestone := some 700, perLevelMilestoneProgression := false,
      levelMilestones := [] },
    { id := "greenhouse", name := "Greenhouse", category := "Expansion",
      baseCost := 4800, costExponent := 2.7, baseEffect := 15,
      effectFormula := fun level base => (level : ℚ) * base,
      requiresMilestone := some 1000, perLevelMilestoneProgression := true,
      levelMilestones := [] },
    { id := "autoPlanter", name := "Auto Planter", category := "Automation",
      baseCost := 3000, costExponent := 3.2, baseEffect := 10,
      effectFormula := fun level base => max 1 (base - (level : ℚ)),
      requiresMilestone := none, perLevelMilestoneProgression := false,
      levelMilestones := [] },
    { id := "autoShovel", name := "Auto Shovel", category := "Automation",
      baseCost := 1300, costExponent := 3.2, baseEffect := 10,
      effectFormula := fun level base => max 1 (base - (level : ℚ)),
      requiresMilestone := none, perLevelMilestoneProgression := false,
      levelMilestones := [] },
    { id := "weatherStation", name := "Weather Station", category := "Automation",
      baseCost := 4200, costExponent := 3.35, baseEffect := 30,
      effectFormula := fun level base => (level : ℚ) * base,
      requiresMilestone := none, perLevelMilestoneProgression := false,
      levelMilestones := [] },
    { id := "stormSatellite", name := "Storm Satellite", category := "Automation",
      baseCost := 5200, costExponent := 3.2, baseEffect := 0.002,
      effectFormula := fun level base => (level : ℚ) * base,
      requiresMilestone := some 3000, perLevelMilestoneProgression := true,
      levelMilestones := [] },
    { id := "gnomeInterns", name := "Gnome Interns", category := "Automation",
      baseCost := 5200, costExponent := 2.9, baseEffect := 4,
      effectFormula := fun level base => min 30 ((level : ℚ) * base),
      requiresMilestone := some 800, perLevelMilestoneProgression := false,
      levelMilestones := [] } ]

/-- Find a catalog entry by id (`UPGRADES[id]`). -/
def findUpgrade (id : String) : Option UpgradeDef :=
  UPGRADES.find? (fun u => u.id = id)

/-- `floor(baseCost * costExponent ^ level)`; an unknown id has cost
`Infinity` (never affordable), modelled as `none`. -/
def getUpgradeCost (id : String) (level : Nat) : Option ℚ :=
  (findUpgrade id).map (fun u => ((u.baseCost * u.costExponent ^ level).floor : ℚ))

/-- Milestone gate required to reach `targetLevel`
(source: `constants.ts` `getUpgradeMilestoneRequirement`).  JavaScript
truthiness on `levelMilestones[targetLevel]` and `requiresMilestone`
is made explicit: a missing entry and the number `0` are both falsy. -/
def getUpgradeMilestoneRequirement (id : String) (targetLevel : Nat) : Option Nat :=
  if targetLevel = 0 then none
  else
    match findUpgrade id with
    | none => none
    | some u =>
      if ((u.levelMilestones.lookup targetLevel).getD 0) ≠ 0 then
        u.levelMilestones.lookup targetLevel
      else if u.perLevelMilestoneProgression ∧ (u.requiresMilestone.getD 0) ≠ 0 then
        match PLANTING_MILESTONES.indexOf? (u.requiresMilestone.getD 0) with
        | none => u.requiresMilestone
        | some baseIndex =>
          some (PLANTING_MILESTONES.getD (baseIndex + (targetLevel - 1))
            (PLANTING_MILESTONES.getD (PLANTING_MILESTONES.length - 1) 0))
      else if targetLevel = 1 then
        u.requiresMilestone
      else
        none

/-- Numeric effect of an upgrade at a level (source: `constants.ts`
`getUpgradeEffect`): level 0 is 1 for the two always-active upgrades,
0 for every other id (including unknown ids). -/
def getUpgradeEffect (id : String) (level : Nat) : ℚ :=
  match findUpgrade id with
  | none => 0
  | some u =>
    if level = 0 ∧ id ≠ "gloves" ∧ id ≠ "betterSoil" then 0
    else if level = 0 then 1
    else u.effectFormula level u.baseEffect

/-- Dynamic read `upgrades[id].level`; `none` models the `TypeError`
thrown by reading `.level` of `undefined`. -/
def levelOf (u : UpgradeLevels) : String → Option Nat
  | "gloves" => some u.gloves
  | "shovel" => some u.shovel
  | "confettiCannon" => some u.confettiCannon
  | "composter" => some u.composter
  | "betterSoil" => some u.betterSoil
  | "cleanseSoil" => some u.cleanseSoil
  | "fertilizer" => some u.fertilizer
  | "sprinklers" => some u.sprinklers
  | "sunCore" => some u.sunCore
  | "expandPlot" => some u.expandPlot
  | "seedVault" => some u.seedVault
  | "greenhouse" => some u.greenhouse
  | "autoPlanter" => some u.autoPlanter
  | "autoShovel" => some u.autoShovel
  | "weatherStation" => some u.weatherStation
  | "stormSatellite" => some u.stormSatellite
  | "gnomeInterns" => some u.gnomeInterns
  | _ => none

/-- Dynamic write `upgrades[id].level = n` for the known ids. -/
def setLevel (u : UpgradeLevels) (id : String) (n : Nat) : UpgradeLevels :=
  match id with
  | "gloves" => { u with gloves := n }
  | "shovel" => { u with shovel := n }
  | "confettiCannon" => { u with confettiCannon := n }
  | "composter" => { u with composter := n }
  | "betterSoil" => { u with betterSoil := n }
  | "cleanseSoil" => { u with cleanseSoil := n }
  | "fertilizer" => { u with fertilizer := n }
  | "sprinklers" => { u with sprinklers := n }
  | "sunCore" => { u with sunCore := n }
  | "expandPlot" => { u with expandPlot := n }
  | "seedVault" => { u with seedVault := n }
  | "greenhouse" => { u with greenhouse := n }
  | "autoPlanter" => { u with autoPlanter := n }
  | "autoShovel" => { u with autoShovel := n }
  | "weatherStation" => { u with weatherStation := n }
  | "stormSatellite" => { u with stormSatellite := n }
  | "gnomeInterns" => { u with gnomeInterns := n }
  | _ => u

/-- The canonical initial plot: 16 empty tiles with `id = index`. -/
def createInitialPlot : List PlotTile :=
  (List.range INITIAL_PLOT_SIZE).map (fun i =>
    { id := i, hasTree := false, isWithered := false, seedsGenerated := 0,
      isGolden := false, isDiamond := false, rareExpiresAt := none })

/-- The canonical initial game state (source: `constants.ts`
`INITIAL_GAME_STATE`). -/
def INITIAL_GAME_STATE : GameState :=
  { resources := { seeds := 40 },
    upgrades :=
      { gloves := 0, shovel := 0, confettiCannon := 0, composter := 0,
        betterSoil := 0, cleanseSoil := 0, fertilizer := 0, sprinklers := 0,
        sunCore := 0, expandPlot := 0, seedVault := 0, greenhouse := 0,
        autoPlanter := 0, autoShovel := 0, weatherStation := 0,
        stormSatellite := 0, gnomeInterns := 0 },
    plot := createInitialPlot,
    treeLifespanSeeds := TREE_LIFESPAN_SEEDS,
    costs := { tree := 10 },
    totalTreesPlanted := 0,
    loggedMilestones := [],
    notifiedAvailable := [],
    currentSeason := Season.summer,
    autoPlanterCooldown := 10,
    autoShovelCooldown := 8,
    seasonDuration := 0,
    peakSeeds := 40,
    preferences :=
      { reducedMotion := false, compactLogs := false, seasonTips := true,
        classicActionsUI := false, classicUpgradesUI := false,
        disableConfetti := false, disableParticles := false,
        effectsVolume := 1 },
    milestoneBonuses := { gatherBonus := 0 } }

/- ### Helpers shared by tick and actions (source: `App.tsx` top level) -/

def BASE_EVENT_CHANCE : ℚ := 0.002

def BASE_PLANTING_INCREMENT : ℚ := 5

def MIN_PLANTING_INCREMENT : ℚ := 1

/-- Current cost of planting one tree (source: `calculatePlantingCost`). -/
def calculatePlantingCost (treeCount : Nat) (baseCost : ℚ) (seedVaultLevel : Nat) : ℚ :=
  let discountPerTree := if seedVaultLevel > 0 then getUpgradeEffect "seedVault" seedVaultLevel else 0
  let incrementalCost := max MIN_PLANTING_INCREMENT (BASE_PLANTING_INCREMENT - discountPerTree)
  baseCost + (treeCount : ℚ) * incrementalCost

/-- Source `scheduleRareExpiry`: stamp a rarity deadline from the flags. -/
def scheduleRareExpiry (now : Nat) (t : PlotTile) : PlotTile :=
  if t.isDiamond then { t with rareExpiresAt := some (now + DIAMOND_TREE_DURATION_MS) }
  else if t.isGolden then { t with rareExpiresAt := some (now + GOLDEN_TREE_DURATION_MS) }
  else { t with rareExpiresAt := none }

/-- JavaScript truthiness of a stored timestamp: `undefined` and `0` are
both falsy (`!tile.rareExpiresAt`, `rareExpiry && ...`). -/
def truthyTime : Option Nat → Option Nat
  | none => none
  | some v => if v = 0 then none else some v

/-- Source `ensureRareExpiry`: defensively re-stamp a rare tile whose
deadline is missing (falsy). -/
def ensureRareExpiry (now : Nat) (t : PlotTile) : PlotTile :=
  if (t.isDiamond || t.isGolden) && (truthyTime t.rareExpiresAt).isNone then
    scheduleRareExpiry now t
  else t

/-- `arr[Math.floor(q * len)]` definedness: the floored index, provided
it is in range (out of range reads `undefined`). -/
def pickIndex (q : ℚ) (len : Nat) : Option Nat :=
  let j := (q * (len : ℚ)).floor
  if 0 ≤ j ∧ j < (len : ℤ) then some j.toNat else none

/- ### Event catalog (source: `constants.ts` `EVENTS`) -/

/-- One random-event definition.  `apply` takes the wall clock and the
random stream because several events read `Date.now()` / `Math.random()`. -/
structure EventDef where
  id : String
  description : String
  weight : ℚ
  canTrigger : Option (GameState → Bool)
  apply : GameState → Nat → Rng → GameState × Rng

/-- A tile holding a living (planted, non-withered) tree. -/
def livingTile (t : PlotTile) : Bool :=
  t.hasTree && !t.isWithered

/-- The loop body of `hummingbirdFestival`: `count` upgrade attempts, each
drawing a uniform index into the (fixed) list of healthy plot positions. -/
def festivalLoop (now : Nat) (healthyIdx : List Nat) :
    Nat → List PlotTile → Rng → List PlotTile × Rng
  | 0, plot, rng => (plot, rng)
  | Nat.succ k, plot, rng =>
    let (q, rng1) := rngNext rng
    let plot' :=
      match (pickIndex q healthyIdx.length).bind healthyIdx.get? with
      | some pi =>
        updateAtIdx pi (fun t =>
          { t with isGolden := true, isDiamond := false,
                   rareExpiresAt := some (now + GOLDEN_TREE_DURATION_MS) }) plot
      | none => plot
    festivalLoop now healthyIdx k plot' rng1

/-- `bountifulHarvest.apply`: grant `10 + 5 * livingTiles` seeds. -/
def bountifulHarvestApply (gs : GameState) (_now : Nat) (rng : Rng) : GameState × Rng :=
  let healthyTrees := (gs.plot.filter livingTile).length
  let bonus : ℚ := 10 + (healthyTrees : ℚ) * 5
  ({ gs with resources := { seeds := gs.resources.seeds + bonus } }, rng)

/-- `diamondSapling.apply`: plant a diamond sapling into the first empty
tile, else upgrade the first living tile in place. -/
def diamondSaplingApply (gs : GameState) (now : Nat) (rng : Rng) : GameState × Rng :=
  if gs.plot.any (fun t => !t.hasTree) then
    ({ gs with plot := updateFirstWhere (fun t => !t.hasTree) (fun t =>
        { t with hasTree := true, isWithered := false, isGolden := false,
                 isDiamond := true, seedsGenerated := 0,
                 rareExpiresAt := some (now + DIAMOND_TREE_DURATION_MS) }) gs.plot }, rng)
  else if gs.plot.any livingTile then
    ({ gs with plot := updateFirstWhere livingTile (fun t =>
        { t with isDiamond := true, isGolden := false, seedsGenerated := 0,
                 rareExpiresAt := some (now + DIAMOND_TREE_DURATION_MS) }) gs.plot }, rng)
  else (gs, rng)

/-- `goldenSapling.apply`: plant a golden sapling into the first empty
tile, else upgrade the first living non-diamond tile in place (without
resetting its growth). -/
def goldenSaplingApply (gs : GameState) (now : Nat) (rng : Rng) : GameState × Rng :=
  if gs.plot.any (fun t => !t.hasTree) then
    ({ gs with plot := updateFirstWhere (fun t => !t.hasTree) (fun t =>
        { t with hasTree := true, isWithered := false, isDiamond := false,
                 isGolden := true, seedsGenerated := 0,
                 rareExpiresAt := some (now + GOLDEN_TREE_DURATION_MS) }) gs.plot }, rng)
  else if gs.plot.any (fun t => t.hasTree && !t.isWithered && !t.isDiamond) then
    let upgradeIt := fun (t : PlotTile) =>
      { t with isGolden := true, isDiamond := false,
               rareExpiresAt := some (now + GOLDEN_TREE_DURATION_MS) }
    ({ gs with plot := updateFirstWhere (fun t => t.hasTree && !t.isWithered && !t.isDiamond) upgradeIt gs.plot }, rng)
  else (gs, rng)

/-- The shared body of the four `changeTo*` events: set the season and
reset its duration to the full constant. -/
def changeSeasonApply (target : Season) (gs : GameState) (_now : Nat) (rng : Rng) :
    GameState × Rng :=
  ({ gs with currentSeason := target, seasonDuration := SEASON_DURATION }, rng)

/-- `gentleRain.apply`: knock 15 off every living tile's accumulator,
floored at zero. -/
def gentleRainApply (gs : GameState) (_now : Nat) (rng : Rng) : GameState × Rng :=
  ({ gs with plot := gs.plot.map (fun t =>
      if livingTile t then { t with seedsGenerated := max 0 (t.seedsGenerated - 15) }
      else t) }, rng)

/-- `hummingbirdFestival.apply`: paint up to two randomly chosen living
tiles golden with fresh expiry. -/
def hummingbirdFestivalApply (gs : GameState) (now : Nat) (rng : Rng) : GameState × Rng :=
  let healthyIdx := (gs.plot.enum.filter (fun p => livingTile p.2)).map (fun p => p.1)
  if healthyIdx.length = 0 then (gs, rng)
  else
    let upgradesCount := min 2 healthyIdx.length
    let (plot2, rng2) := festivalLoop now healthyIdx upgradesCount gs.plot rng
    ({ gs with plot := plot2 }, rng2)

/-- `wiltBlight.apply`: pick one random living tile and wither it unless
the sprinkler resist roll protects it. -/
def wiltBlightApply (gs : GameState) (_now : Nat) (rng : Rng) : GameState × Rng :=
  let candIdx := (gs.plot.enum.filter (fun p => livingTile p.2)).map (fun p => p.1)
  if candIdx.length = 0 then (gs, rng)
  else
    let (q, rng1) := rngNext rng
    let unlucky := (pickIndex q candIdx.length).bind candIdx.get?
    let sprinklerLevel := gs.upgrades.sprinklers
    let sprinklerChance : ℚ := if sprinklerLevel > 0 then min 60 ((sprinklerLevel : ℚ) * 6) else 0
    let (protectedBySprinklers, rng2) :=
      if sprinklerChance > 0 then
        let (q2, r) := rngNext rng1
        (q2 * 100 < sprinklerChance, r)
      else (false, rng1)
    match unlucky with
    | some pi =>
      if ¬ protectedBySprinklers then
        ({ gs with plot := updateAtIdx pi (fun t =>
            { t with isWithered := true, rareExpiresAt := none }) gs.plot }, rng2)
      else (gs, rng2)
    | none => (gs, rng2)

/-- `wanderingMerchant.apply`: grant seeds scaling with the planted
total and knock the base planting cost down by one, floored at 5. -/
def wanderingMerchantApply (gs : GameState) (_now : Nat) (rng : Rng) : GameState × Rng :=
  let bonus : ℚ := 150 + (((gs.totalTreesPlanted : ℚ) * 1.5).floor : ℚ)
  ({ gs with resources := { seeds := gs.resources.seeds + bonus },
             costs := { tree := max 5 (gs.costs.tree - 1) } }, rng)

def EVENTS : List EventDef :=
  [ { id := "bountifulHarvest",
      description := "You found a stash of seeds.",
      weight := 1,
      canTrigger := some (fun gs => gs.plot.any livingTile),
      apply := bountifulHarvestApply },
    { id := "diamondSapling",
      description := "An diamond sapling appears! It produces seeds at an increased rate.",
      weight := 0.1,
      canTrigger := some (fun gs => gs.plot.any (fun t => !t.hasTree || (t.hasTree && !t.isWithered))),
      apply := diamondSaplingApply },
    { id := "goldenSapling",
      description := "A golden sapling appears! It produces seeds at an increased rate.",
      weight := 0.3,
      canTrigger := some (fun gs => gs.plot.any (fun t => !t.hasTree || (t.hasTree && !t.isWithered))),
      apply := goldenSaplingApply },
    { id := "changeToSpring",
      description := "Spring is here.",
      weight := 0.4,
      canTrigger := some (fun gs => gs.currentSeason ≠ Season.spring ∧ gs.seasonDuration ≤ 0),
      apply := changeSeasonApply Season.spring },
    { id := "changeToSummer",
      description := "Summer has arrived.",
      weight := 0.65,
      canTrigger := some (fun gs => gs.currentSeason ≠ Season.summer ∧ gs.seasonDuration ≤ 0),
      apply := changeSeasonApply Season.summer },
    { id := "changeToAutumn",
      description := "Autumn has arrived.",
      weight := 0.75,
      canTrigger := some (fun gs => gs.currentSeason ≠ Season.autumn ∧ gs.seasonDuration ≤ 0),
      apply := changeSeasonApply Season.autumn },
    { id := "changeToWinter",
      description := "Winter has come.",
      weight := 0.45,
      canTrigger := some (fun gs => gs.currentSeason ≠ Season.winter ∧ gs.seasonDuration ≤ 0),
      apply := changeSeasonApply Season.winter },
    { id := "gentleRain",
      description := "Gentle rain cools the soil and refreshes your trees.",
      weight := 0.6,
      canTrigger := some (fun gs => gs.plot.any livingTile),
      apply := gentleRainApply },
    { id := "hummingbirdFestival",
      description := "A hummingbird festival blesses your grove with golden blooms.",
      weight := 0.35,
      canTrigger := some (fun gs => gs.plot.any livingTile),
      apply := hummingbirdFestivalApply },
    { id := "wiltBlight",
      description := "A sudden blight withers one of your trees!",
      weight := 0.25,
      canTrigger := some (fun gs => gs.plot.any livingTile),
      apply := wiltBlightApply },
    { id := "wanderingMerchant",
      description := "A wandering merchant swaps stories for a bundle of seeds.",
      weight := 0.4,
      canTrigger := none,
      apply := wanderingMerchantApply } ]

/- ### Tick engine (source: `App.tsx` `gameTick`) -/

/-- Phase 1 — season decay: count the season down, or revert to summer
(with a log, plus a tip when enabled) once it has run out. -/
def seasonPhase (s : GameState) : GameState × List String :=
  if s.seasonDuration > 0 then
    ({ s with seasonDuration := s.seasonDuration - 1 }, [])
  else if s.currentSeason ≠ Season.summer then
    ({ s with currentSeason := Season.summer },
      "The season returns to summer." ::
        (if s.preferences.seasonTips then [SEASON_TIPS Season.summer] else []))
  else (s, [])

/-- Per-tick event trigger probability: base chance plus the weather
station's linear term plus the storm satellite's effect. -/
def eventChanceOf (s : GameState) : ℚ :=
  BASE_EVENT_CHANCE + (s.upgrades.weatherStation : ℚ) * 0.0005
    + getUpgradeEffect "stormSatellite" s.upgrades.stormSatellite

/-- Events whose `canTrigger` (if present) holds on the state. -/
def possibleEventsOf (s : GameState) : List EventDef :=
  EVENTS.filter (fun e =>
    match e.canTrigger with
    | none => true
    | some p => p s)

def totalWeightOf (es : List EventDef) : ℚ :=
  (es.map (fun e => e.weight)).sum

/-- The source's weighted pick: walk the list subtracting each weight
from the draw until the remainder goes negative. -/
def findByWeight : ℚ → List EventDef → Option EventDef
  | _, [] => none
  | r, e :: es => if r - e.weight < 0 then some e else findByWeight (r - e.weight) es

/-- Log the description of the triggered event, apply its mutator, and
for `changeTo*` events extend the season duration by the
weather-station bonus and log the season tip when enabled. -/
def applyTriggeredEvent (s : GameState) (now : Nat) (e : EventDef) (rng : Rng) :
    GameState × List String × Rng :=
  let (s2, rng3) := e.apply s now rng
  if e.id.startsWith "changeTo" then
    let wsl := s.upgrades.weatherStation
    let extra := if wsl > 0 then getUpgradeEffect "weatherStation" wsl else 0
    let s3 := { s2 with seasonDuration := s2.seasonDuration + extra }
    let tips := if s.preferences.seasonTips then [SEASON_TIPS s3.currentSeason] else []
    (s3, e.description :: tips, rng3)
  else (s2, [e.description], rng3)

/-- Phase 2 — event roll: on success, filter the catalog, pick by
weight, log the description, apply the event, and extend the season for
`changeTo*` events by the weather-station bonus (plus a tip). -/
def eventPhase (s : GameState) (now : Nat) (rng : Rng) : GameState × List String × Rng :=
  let (q1, rng1) := rngNext rng
  if q1 < eventChanceOf s then
    let possible := possibleEventsOf s
    if possible.length > 0 then
      let (q2, rng2) := rngNext rng1
      let r := q2 * totalWeightOf possible
      match findByWeight r possible with
      | none => (s, [], rng2)
      | some e => applyTriggeredEvent s now e rng2
    else (s, [], rng1)
  else (s, [], rng1)

/-- Reset a tile to a freshly planted tree (shared by manual planting,
the auto planter and the saplings the events spawn on empty tiles). -/
def plantedTile (t : PlotTile) : PlotTile :=
  { t with hasTree := true, isWithered := false, seedsGenerated := 0,
           isGolden := false, isDiamond := false, rareExpiresAt := none }

/-- Reset a tile to the canonical empty shape (clearing a withered tile). -/
def clearedTile (t : PlotTile) : PlotTile :=
  { t with hasTree := false, isWithered := false, seedsGenerated := 0,
           isGolden := false, isDiamond := false, rareExpiresAt := none }

/-- Phase 3 — auto planter.  While no empty tile exists the cooldown is
pinned at its maximum; otherwise it counts down, and on expiry the
planter plants into the first empty tile if the current planting cost is
affordable (running the fertilizer roll), then resets the cooldown
either way. -/
def autoPlanterPhase (s : GameState) (now : Nat) (rng : Rng) : GameState × List String × Rng :=
  let apLvl := s.upgrades.autoPlanter
  if apLvl > 0 then
    if ¬ s.plot.any (fun t => !t.hasTree) then
      ({ s with autoPlanterCooldown := getUpgradeEffect "autoPlanter" apLvl }, [], rng)
    else
      let cd := s.autoPlanterCooldown - 1
      if cd ≤ 0 then
        let treeCount := (s.plot.filter (fun t => t.hasTree)).length
        let plotCapacity := s.plot.length
        let currentPlantingCost := calculatePlantingCost treeCount s.costs.tree s.upgrades.seedVault
        if treeCount < plotCapacity ∧ s.resources.seeds ≥ currentPlantingCost then
          let (qf, rng2) := rngNext rng
          let fertilizerChance := getUpgradeEffect "fertilizer" s.upgrades.fertilizer
          let goldenHit := qf * 100 < fertilizerChance
          let plantIt := fun (t : PlotTile) =>
            if goldenHit then
              scheduleRareExpiry now { plantedTile t with isGolden := true, isDiamond := false }
            else plantedTile t
          let logs :=
            (if goldenHit then ["Fertilizer worked! A golden sapling grew, producing extra seeds."] else [])
              ++ ["Auto Planter planted a new tree."]
          ({ s with resources := { seeds := s.resources.seeds - currentPlantingCost },
                    plot := updateFirstWhere (fun t => !t.hasTree) plantIt s.plot,
                    autoPlanterCooldown := getUpgradeEffect "autoPlanter" apLvl }, logs, rng2)
        else
          ({ s with autoPlanterCooldown := getUpgradeEffect "autoPlanter" apLvl }, [], rng)
      else
        ({ s with autoPlanterCooldown := cd }, [], rng)
  else (s, [], rng)

/-- Phase 4 — auto shovel: count the cooldown down; on expiry clear the
first withered tile (crediting the compost bonus scaled by the rarity it
had before clearing) and reset the cooldown. -/
def autoShovelPhase (s : GameState) : GameState × List String :=
  let asLvl := s.upgrades.autoShovel
  if asLvl > 0 then
    let cd := s.autoShovelCooldown - 1
    if cd ≤ 0 then
      match s.plot.find? (fun t => t.isWithered) with
      | some w =>
        let compost0 := getUpgradeEffect "shovel" s.upgrades.shovel
          + getUpgradeEffect "composter" s.upgrades.composter
        let compost := if w.isDiamond then compost0 * 10
          else if w.isGolden then compost0 * 5 else compost0
        ({ s with plot := updateFirstWhere (fun t => t.isWithered) clearedTile s.plot,
                  resources := { seeds := s.resources.seeds + compost },
                  autoShovelCooldown := getUpgradeEffect "autoShovel" asLvl },
          ["Auto Shovel cleared a withered tree."])
      | none =>
        ({ s with autoShovelCooldown := getUpgradeEffect "autoShovel" asLvl }, [])
    else
      ({ s with autoShovelCooldown := cd }, [])
  else (s, [])

/-- Phase 5 — gnome interns: roll the upgrade's percent chance; on
success plant a free tree into the first empty tile (18% chance of
golden, counted in `totalTreesPlanted`), or grant a seed stipend when
the plot is full. -/
def gnomePhase (s : GameState) (now : Nat) (rng : Rng) : GameState × List String × Rng :=
  let gnomeLevel := s.upgrades.gnomeInterns
  if gnomeLevel > 0 then
    let gnomeChance := getUpgradeEffect "gnomeInterns" gnomeLevel
    if gnomeChance > 0 then
      let (q, rng1) := rngNext rng
      if q * 100 < gnomeChance then
        if s.plot.any (fun t => !t.hasTree) then
          let (q2, rng2) := rngNext rng1
          let lucky := q2 < 0.18
          let plantIt := fun (t : PlotTile) =>
            if lucky then
              scheduleRareExpiry now { plantedTile t with isGolden := true, isDiamond := false }
            else plantedTile t
          ({ s with plot := updateFirstWhere (fun t => !t.hasTree) plantIt s.plot,
                    totalTreesPlanted := s.totalTreesPlanted + 1 },
            [if lucky then "Gnome interns planted a shiny tree for free."
             else "Gnome interns planted a free tree."], rng2)
        else
          let spareSeeds : ℚ := 10 + (gnomeLevel : ℚ) * 5
          ({ s with resources := { seeds := s.resources.seeds + spareSeeds } },
            ["Gnome interns dropped off spare seeds."], rng1)
      else (s, [], rng1)
    else (s, [], rng)
  else (s, [], rng)

/-- Phase 6, one tile — growth, rare expiry and end-of-life resolution.
Returns the updated tile, its contribution to `seedsGained`, how many
withers it produced (0 or 1), the logs, and the remaining draws.  The
sprinkler roll is evaluated before the branch (as in the source), so it
consumes a draw whenever `sprinklerChance > 0`. -/
def growTile (lifespan rate sprinklerChance : ℚ) (now : Nat) (t0 : PlotTile) (rng : Rng) :
    PlotTile × ℚ × Nat × List String × Rng :=
  if t0.hasTree && !t0.isWithered then
    let t := if t0.isGolden || t0.isDiamond then ensureRareExpiry now t0 else t0
    let rareExpiry := truthyTime t.rareExpiresAt
    let hasRareStatus := t.isGolden || t.isDiamond
    if hasRareStatus && (match rareExpiry with | some v => decide (now ≥ v) | none => false) then
      ({ t with isWithered := true, rareExpiresAt := none }, 0, 1, [], rng)
    else
      let generationMultiplier : ℚ := if t.isDiamond then 5 else if t.isGolden then 2 else 1
      let seedsThisTick := rate * generationMultiplier
      let t1 := { t with seedsGenerated := t.seedsGenerated + seedsThisTick }
      if t1.seedsGenerated ≥ lifespan then
        let (savedBySprinklers, rng1) :=
          if sprinklerChance > 0 then
            let (q, r) := rngNext rng
            (q * 100 < sprinklerChance, r)
          else (false, rng)
        if hasRareStatus && (match rareExpiry with | some v => decide (now < v) | none => false) then
          ({ t1 with seedsGenerated := ((lifespan * 0.5).floor : ℚ) }, seedsThisTick, 0, [], rng1)
        else if savedBySprinklers then
          let (q2, rng2) := rngNext rng1
          let logs := if q2 < 0.2 then ["Sprinklers saved a tree from withering."] else []
          ({ t1 with seedsGenerated := ((lifespan * 0.5).floor : ℚ) }, seedsThisTick, 0, logs, rng2)
        else
          ({ t1 with isWithered := true, rareExpiresAt := none }, seedsThisTick, 1, [], rng1)
      else (t1, seedsThisTick, 0, [], rng)
  else (t0, 0, 0, [], rng)

/-- Phase 6 over the whole plot, left to right. -/
def growthFold (lifespan rate sprinklerChance : ℚ) (now : Nat) :
    List PlotTile → Rng → List PlotTile × ℚ × Nat × List String × Rng
  | [], rng => ([], 0, 0, [], rng)
  | t :: ts, rng =>
    let (t', g, w, logs, rng1) := growTile lifespan rate sprinklerChance now t rng
    let (ts', g2, w2, logs2, rng2) := growthFold lifespan rate sprinklerChance now ts rng1
    (t' :: ts', g + g2, w + w2, logs ++ logs2, rng2)

/-- Phase 8 — availability notifications: for every catalog upgrade not
at its excluded max level, if its next level is affordable and has not
been notified at this exact level, log once and mark the key. -/
def notifyPass (seeds : ℚ) (u : UpgradeLevels) (notified0 : List (String × Bool)) :
    List (String × Bool) × List String :=
  UPGRADES.foldl (fun acc d =>
    let (notified, logs) := acc
    let lvl := (levelOf u d.id).getD 0
    if (d.id = "autoPlanter" ∨ d.id = "autoShovel") ∧ lvl ≥ 9 then acc
    else
      let affordable : Bool :=
        match getUpgradeCost d.id lvl with
        | some c => decide (seeds ≥ c)
        | none => false
      let key := d.id ++ "_" ++ toString lvl
      if !(lookupFlag notified key) && affordable then
        (setFlag notified key true,
          logs ++ [d.category ++ ": " ++ d.name ++ " Lv. " ++ toString (lvl + 1) ++ " is available."])
      else acc) (notified0, [])

/-- One simulation tick (source: `App.tsx` `gameTick`): season decay,
event roll, auto planter, auto shovel, gnome interns, per-tile growth,
first-wither log, season-scaled seed gain, peak update, availability
notifications.  `sprinklerChance` is cached from the incoming state as
in the source (no phase before its use changes the sprinkler level). -/
def gameTick (s0 : GameState) (now : Nat) (rng : Rng) : GameState × List String :=
  let sprinklerLevel := s0.upgrades.sprinklers
  let sprinklerChance := if sprinklerLevel > 0 then getUpgradeEffect "sprinklers" sprinklerLevel else 0
  let (s1, logs1) := seasonPhase s0
  let (s2, logs2, rng2) := eventPhase s1 now rng
  let (s3, logs3, rng3) := autoPlanterPhase s2 now rng2
  let (s4, logs4) := autoShovelPhase s3
  let (s5, logs5, rng5) := gnomePhase s4 now rng3
  let currentSeedGenRate := getUpgradeEffect "betterSoil" s5.upgrades.betterSoil
  let seasonMultiplier := SEASON_MULTIPLIERS s5.currentSeason
  let (plot', seedsGained, witheredCountThisTick, logs6, _) :=
    growthFold s5.treeLifespanSeeds currentSeedGenRate sprinklerChance now s5.plot rng5
  let s6 := { s5 with plot := plot' }
  let (s7, logs7) :=
    if witheredCountThisTick > 0 ∧ ¬ lookupFlag s6.loggedMilestones "firstWither" then
      ({ s6 with loggedMilestones := setFlag s6.loggedMilestones "firstWither" true },
        ["A tree has withered."])
    else (s6, [])
  let s8 := { s7 with resources := { seeds := s7.resources.seeds + seedsGained * seasonMultiplier } }
  -- `peakSeeds || 0` only differs from `peakSeeds` at the falsy value 0,
  -- where both sides of the max agree anyway
  let s9 := { s8 with peakSeeds := max s8.peakSeeds s8.resources.seeds }
  let (notified, logs8) := notifyPass s9.resources.seeds s9.upgrades s9.notifiedAvailable
  let s10 := { s9 with notifiedAvailable := notified }
  (s10, logs1 ++ logs2 ++ logs3 ++ logs4 ++ logs5 ++ logs6 ++ logs7 ++ logs8)

/- ### Action resolver (source: `App.tsx` `handleAction`) -/

/-- Apply a milestone's reward entries in order: `gatherBonus` rewards
add to the permanent bonus, `unlockUpgrade` rewards are informational;
every reward logs its message. -/
def applyRewards (b : MilestoneBonuses) (rewards : List MilestoneReward) :
    MilestoneBonuses × List String :=
  rewards.foldl (fun acc reward =>
    match reward with
    | MilestoneReward.gatherBonus amount message =>
      ({ gatherBonus := acc.1.gatherBonus + amount }, acc.2 ++ [message])
    | MilestoneReward.unlockUpgrade _ message =>
      (acc.1, acc.2 ++ [message])) (b, [])

/-- Player action dispatch (source: `handleAction`); the source takes the
action as a string and ignores unknown ones.  Returns the new state and
the log lines emitted. -/
def handleAction (s : GameState) (action : String) (now : Nat) (rng : Rng) :
    GameState × List String :=
  let treeCount := (s.plot.filter (fun t => t.hasTree)).length
  let (s9, logs) :=
    if action = "gatherSeeds" then
      let glovesGain := getUpgradeEffect "gloves" s.upgrades.gloves
      let sunCoreGain := getUpgradeEffect "sunCore" s.upgrades.sunCore
      let milestoneBonus := s.milestoneBonuses.gatherBonus
      let s1 := { s with resources := { seeds := s.resources.seeds + glovesGain + sunCoreGain + milestoneBonus } }
      let confettiLevel := s1.upgrades.confettiCannon
      if confettiLevel > 0 then
        let confettiChance := getUpgradeEffect "confettiCannon" confettiLevel
        let (q, _) := rngNext rng
        if q * 100 < confettiChance then
          let confettiBonus : Nat := 5 + confettiLevel * 3
          ({ s1 with resources := { seeds := s1.resources.seeds + (confettiBonus : ℚ) } },
            ["Confetti cannon popped for +" ++ toString confettiBonus ++ " seeds."])
        else (s1, [])
      else (s1, [])
    else if action = "plantTree" then
      let plotCapacity := s.plot.length
      let currentPlantingCost := calculatePlantingCost treeCount s.costs.tree s.upgrades.seedVault
      if s.plot.any (fun t => !t.hasTree) ∧ treeCount < plotCapacity
          ∧ s.resources.seeds ≥ currentPlantingCost then
        let (qf, _) := rngNext rng
        let fertilizerChance := getUpgradeEffect "fertilizer" s.upgrades.fertilizer
        let goldenHit := qf * 100 < fertilizerChance
        let plantIt := fun (t : PlotTile) =>
          if goldenHit then
            scheduleRareExpiry now { plantedTile t with isGolden := true, isDiamond := false }
          else plantedTile t
        let fertLogs :=
          if goldenHit then ["Fertilizer worked! A golden sapling grew, producing extra seeds."]
          else []
        let s1 := { s with resources := { seeds := s.resources.seeds - currentPlantingCost },
                           plot := updateFirstWhere (fun t => !t.hasTree) plantIt s.plot,
                           totalTreesPlanted := s.totalTreesPlanted + 1 }
        match PLANTING_MILESTONES.find? (fun m => m = s1.totalTreesPlanted) with
        | some milestone =>
          if ¬ lookupFlag s1.loggedMilestones ("planted" ++ toString milestone) then
            let milestoneMsg :=
              if milestone = 1 then "Planted your first tree."
              else "Planted " ++ toString milestone ++ " trees."
            let (bonuses, rewardLogs) :=
              match MILESTONE_REWARDS.lookup milestone with
              | some rewards => applyRewards s1.milestoneBonuses rewards
              | none => (s1.milestoneBonuses, [])
            ({ s1 with milestoneBonuses := bonuses,
                       loggedMilestones :=
                         setFlag s1.loggedMilestones ("planted" ++ toString milestone) true },
              fertLogs ++ [milestoneMsg] ++ rewardLogs)
          else (s1, fertLogs)
        | none => (s1, fertLogs)
      else (s, [])
    else if action = "clearWithered" then
      match s.plot.find? (fun t => t.isWithered) with
      | some w =>
        let wasGolden := w.isGolden
        let wasDiamond := w.isDiamond
        let s1 := { s with plot := updateFirstWhere (fun t => t.isWithered) clearedTile s.plot }
        if s1.upgrades.shovel > 0 then
          let compost0 := getUpgradeEffect "shovel" s1.upgrades.shovel
            + getUpgradeEffect "composter" s1.upgrades.composter
          let (compost, rarityLogs) :=
            if wasDiamond then
              (compost0 * 10, ["The diamond tree left behind a treasure trove of seeds!"])
            else if wasGolden then
              (compost0 * 5, ["The golden tree left behind a bounty of seeds!"])
            else (compost0, [])
          ({ s1 with resources := { seeds := s1.resources.seeds + compost } },
            ["Cleared a withered tree."] ++ rarityLogs)
        else (s1, ["Cleared a withered tree."])
      | none => (s, [])
    else (s, [])
  -- `peakSeeds || 0` only differs from `peakSeeds` at the falsy value 0
  ({ s9 with peakSeeds := max s9.peakSeeds s9.resources.seeds }, logs)

/-- The read-only affordability predicate (source: `canAffordUpgrade`).
`none` models the `TypeError` thrown when `upgrades[upgradeId]` has no
entry; the milestone gate uses JavaScript truthiness (`0`/`undefined`
do not gate). -/
def canAffordUpgrade (s : GameState) (upgradeId : String) : Option Bool :=
  match levelOf s.upgrades upgradeId with
  | none => none
  | some currentLevel =>
    let targetLevel := currentLevel + 1
    let affordable : Bool :=
      match getUpgradeCost upgradeId currentLevel with
      | some cost => decide (s.resources.seeds ≥ cost)
      | none => false
    if !affordable then some false
    else
      let requiredMilestone := (getUpgradeMilestoneRequirement upgradeId targetLevel).getD 0
      if requiredMilestone ≠ 0 ∧ s.totalTreesPlanted < requiredMilestone then some false
      else some true

/-- Buy an upgrade (source: `handleBuyUpgrade`): a failed affordability
check is a silent no-op; a successful purchase debits the cost, bumps
the level, expands the plot for `expandPlot`, and recomputes the tree
lifespan for `cleanseSoil`/`greenhouse` from the new levels. -/
def handleBuyUpgrade (s : GameState) (upgradeId : String) : Option (GameState × List String) :=
  match canAffordUpgrade s upgradeId with
  | none => none
  | some false => some (s, [])
  | some true =>
    match findUpgrade upgradeId, levelOf s.upgrades upgradeId with
    | some upgradeDef, some currentLevel =>
      let cost := (getUpgradeCost upgradeId currentLevel).getD 0
      let buyLog := "Upgraded " ++ upgradeDef.name ++ " to Level " ++ toString (currentLevel + 1) ++ "!"
      let s1 := { s with resources := { seeds := s.resources.seeds - cost },
                         upgrades := setLevel s.upgrades upgradeId (currentLevel + 1) }
      let s2 :=
        if upgradeId = "expandPlot" then
          let tilesToUnlock := (((findUpgrade "expandPlot").map (fun u : UpgradeDef => u.baseEffect)).getD 0).floor.toNat
          let newTiles := (List.range tilesToUnlock).map (fun i =>
            { id := s1.plot.length + i, hasTree := false, isWithered := false,
              seedsGenerated := 0, isGolden := false, isDiamond := false,
              rareExpiresAt := none : PlotTile })
          { s1 with plot := s1.plot ++ newTiles }
        else s1
      let s3 :=
        if upgradeId = "cleanseSoil" ∨ upgradeId = "greenhouse" then
          let cleanseBonus := getUpgradeEffect "cleanseSoil" s2.upgrades.cleanseSoil
          let greenhouseBonus := getUpgradeEffect "greenhouse" s2.upgrades.greenhouse
          { s2 with treeLifespanSeeds := TREE_LIFESPAN_SEEDS + cleanseBonus + greenhouseBonus }
        else s2
      some (s3, [buyLog])
    | _, _ => none

/- ### Saved-game persistence (source: `App.tsx` save effect and load merge) -/

/-- A persisted `resources` map: the `seeds` key is optional. -/
structure SavedResources where
  seeds : Option ℚ
  deriving Repr, DecidableEq

/-- Persisted upgrade levels: every id optional (older saves may lack
entries added to the catalog later). -/
structure SavedUpgradeLevels where
  gloves : Option Nat
  shovel : Option Nat
  confettiCannon : Option Nat
  composter : Option Nat
  betterSoil : Option Nat
  cleanseSoil : Option Nat
  fertilizer : Option Nat
  sprinklers : Option Nat
  sunCore : Option Nat
  expandPlot : Option Nat
  seedVault : Option Nat
  greenhouse : Option Nat
  autoPlanter : Option Nat
  autoShovel : Option Nat
  weatherStation : Option Nat
  stormSatellite : Option Nat
  gnomeInterns : Option Nat
  deriving Repr, DecidableEq

/-- Persisted preferences: every key optional. -/
structure SavedPreferences where
  reducedMotion : Option Bool
  compactLogs : Option Bool
  seasonTips : Option Bool
  classicActionsUI : Option Bool
  classicUpgradesUI : Option Bool
  disableConfetti : Option Bool
  disableParticles : Option Bool
  effectsVolume : Option ℚ
  deriving Repr, DecidableEq

structure SavedMilestoneBonuses where
  gatherBonus : Option ℚ
  deriving Repr, DecidableEq

/-- A parsed save snapshot: every top-level field optional, the nested
maps with optional keys.  A full snapshot produced by `serializeGame`
has every field present. -/
structure SavedGame where
  resources : Option SavedResources
  upgrades : Option SavedUpgradeLevels
  plot : Option (List PlotTile)
  treeLifespanSeeds : Option ℚ
  costs : Option Costs
  totalTreesPlanted : Option Nat
  loggedMilestones : Option (List (String × Bool))
  notifiedAvailable : Option (List (String × Bool))
  currentSeason : Option Season
  autoPlanterCooldown : Option ℚ
  autoShovelCooldown : Option ℚ
  seasonDuration : Option ℚ
  peakSeeds : Option ℚ
  preferences : Option SavedPreferences
  milestoneBonuses : Option SavedMilestoneBonuses
  deriving Repr, DecidableEq

/-- `JSON.stringify` of a well-formed state: a full snapshot (structural;
the only lossy JSON behaviour, dropping `rareExpiresAt: undefined` keys,
is invisible because a missing key and `undefined` are the same value). -/
def serializeGame (s : GameState) : SavedGame :=
  { resources := some { seeds := s.resources.seeds },
    upgrades := some
      { gloves := some s.upgrades.gloves, shovel := some s.upgrades.shovel,
        confettiCannon := some s.upgrades.confettiCannon,
        composter := some s.upgrades.composter, betterSoil := some s.upgrades.betterSoil,
        cleanseSoil := some s.upgrades.cleanseSoil, fertilizer := some s.upgrades.fertilizer,
        sprinklers := some s.upgrades.sprinklers, sunCore := some s.upgrades.sunCore,
        expandPlot := some s.upgrades.expandPlot, seedVault := some s.upgrades.seedVault,
        greenhouse := some s.upgrades.greenhouse, autoPlanter := some s.upgrades.autoPlanter,
        autoShovel := some s.upgrades.autoShovel, weatherStation := some s.upgrades.weatherStation,
        stormSatellite := some s.upgrades.stormSatellite,
        gnomeInterns := some s.upgrades.gnomeInterns },
    plot := some s.plot,
    treeLifespanSeeds := some s.treeLifespanSeeds,
    costs := some s.costs,
    totalTreesPlanted := some s.totalTreesPlanted,
    loggedMilestones := some s.loggedMilestones,
    notifiedAvailable := some s.notifiedAvailable,
    currentSeason := some s.currentSeason,
    autoPlanterCooldown := some s.autoPlanterCooldown,
    autoShovelCooldown := some s.autoShovelCooldown,
    seasonDuration := some s.seasonDuration,
    peakSeeds := some s.peakSeeds,
    preferences := some
      { reducedMotion := some s.preferences.reducedMotion,
        compactLogs := some s.preferences.compactLogs,
        seasonTips := some s.preferences.seasonTips,
        classicActionsUI := some s.preferences.classicActionsUI,
        classicUpgradesUI := some s.preferences.classicUpgradesUI,
        disableConfetti := some s.preferences.disableConfetti,
        disableParticles := some s.preferences.disableParticles,
        effectsVolume := some s.preferences.effectsVolume },
    milestoneBonuses := some { gatherBonus := some s.milestoneBonuses.gatherBonus } }

/-- The saved-game load path (source: `App.tsx` lines 70–115): spread the
parsed snapshot over `INITIAL_GAME_STATE` field by field, merge the
nested maps key by key, then re-derive `peakSeeds` as the max of the
persisted peak and the persisted seeds (`|| 0` only differs from the
identity at the falsy value 0, where the max agrees anyway). -/
def loadSavedGame (p : SavedGame) : GameState :=
  let init := INITIAL_GAME_STATE
  let seeds :=
    match p.resources with
    | none => init.resources.seeds
    | some r => r.seeds.getD init.resources.seeds
  let upgrades :=
    match p.upgrades with
    | none => init.upgrades
    | some u =>
      { gloves := u.gloves.getD init.upgrades.gloves,
        shovel := u.shovel.getD init.upgrades.shovel,
        confettiCannon := u.confettiCannon.getD init.upgrades.confettiCannon,
        composter := u.composter.getD init.upgrades.composter,
        betterSoil := u.betterSoil.getD init.upgrades.betterSoil,
        cleanseSoil := u.cleanseSoil.getD init.upgrades.cleanseSoil,
        fertilizer := u.fertilizer.getD init.upgrades.fertilizer,
        sprinklers := u.sprinklers.getD init.upgrades.sprinklers,
        sunCore := u.sunCore.getD init.upgrades.sunCore,
        expandPlot := u.expandPlot.getD init.upgrades.expandPlot,
        seedVault := u.seedVault.getD init.upgrades.seedVault,
        greenhouse := u.greenhouse.getD init.upgrades.greenhouse,
        autoPlanter := u.autoPlanter.getD init.upgrades.autoPlanter,
        autoShovel := u.autoShovel.getD init.upgrades.autoShovel,
        weatherStation := u.weatherStation.getD init.upgrades.weatherStation,
        stormSatellite := u.stormSatellite.getD init.upgrades.stormSatellite,
        gnomeInterns := u.gnomeInterns.getD init.upgrades.gnomeInterns }
  let preferences :=
    match p.preferences with
    | none => init.preferences
    | some q =>
      { reducedMotion := q.reducedMotion.getD init.preferences.reducedMotion,
        compactLogs := q.compactLogs.getD init.preferences.compactLogs,
        seasonTips := q.seasonTips.getD init.preferences.seasonTips,
        classicActionsUI := q.classicActionsUI.getD init.preferences.classicActionsUI,
        classicUpgradesUI := q.classicUpgradesUI.getD init.preferences.classicUpgradesUI,
        disableConfetti := q.disableConfetti.getD init.preferences.disableConfetti,
        disableParticles := q.disableParticles.getD init.preferences.disableParticles,
        effectsVolume := q.effectsVolume.getD init.preferences.effectsVolume }
  let milestoneBonuses :=
    match p.milestoneBonuses with
    | none => init.milestoneBonuses
    | some b => { gatherBonus := b.gatherBonus.getD init.milestoneBonuses.gatherBonus }
  let peak0 := p.peakSeeds.getD init.peakSeeds
  { resources := { seeds := seeds },
    upgrades := upgrades,
    plot := p.plot.getD init.plot,
    treeLifespanSeeds := p.treeLifespanSeeds.getD init.treeLifespanSeeds,
    costs := p.costs.getD init.costs,
    totalTreesPlanted := p.totalTreesPlanted.getD init.totalTreesPlanted,
    loggedMilestones := p.loggedMilestones.getD init.loggedMilestones,
    notifiedAvailable := p.notifiedAvailable.getD init.notifiedAvailable,
    currentSeason := p.currentSeason.getD init.currentSeason,
    autoPlanterCooldown := p.autoPlanterCooldown.getD init.autoPlanterCooldown,
    autoShovelCooldown := p.autoShovelCooldown.getD init.autoShovelCooldown,
    seasonDuration := p.seasonDuration.getD init.seasonDuration,
    peakSeeds := max peak0 seeds,
    preferences := preferences,
    milestoneBonuses := milestoneBonuses }

/- ### Reachability -/

/-- One externally triggered step: a tick, a player action, or an
upgrade purchase. -/
inductive Op where
  | tick (now : Nat) (rng : Rng)
  | act (action : String) (now : Nat) (rng : Rng)
  | buyUp (id : String)
  deriving Repr

/-- Apply one step to the state (logs discarded).  A purchase whose
affordability check throws leaves the React state untouched, so the
crash case is the identity here. -/
def applyOp (s : GameState) : Op → GameState
  | Op.tick now rng => (gameTick s now rng).1
  | Op.act action now rng => (handleAction s action now rng).1
  | Op.buyUp id =>
    match handleBuyUpgrade s id with
    | some (s', _) => s'
    | none => s

/-- Apply a list of steps left to right. -/
def runOps (s : GameState) (ops : List Op) : GameState :=
  ops.foldl applyOp s

/-- States reachable from the canonical initial state by any sequence of
ticks, actions and purchases (with arbitrary clock readings and random
draws). -/
inductive Reachable : GameState → Prop where
  | init : Reachable INITIAL_GAME_STATE
  | step {s : GameState} (op : Op) : Reachable s → Reachable (applyOp s op)

/-- Running a list of steps preserves reachability. -/
theorem reachable_runOps {s : GameState} (h : Reachable s) (ops : List Op) :
    Reachable (runOps s ops) := by
  induction ops generalizing s with
  | nil => exact h
  | cons op ops ih => exact ih (Reachable.step op h)

/- ### C1 — scenario: lifespan reached and withering in the same tick -/

/-- The scenario state of C1: one living, non-rare tile (id 0) with
`seedsGenerated = 59`, lifespan threshold 60, soil generation effect 1
(betterSoil level 0), summer, sprinklers level 0, no automation. -/
def c1State : GameState :=
  { INITIAL_GAME_STATE with
      resources := { seeds := 0 },
      plot := updateAtIdx 0 (fun t => { t with hasTree := true, seedsGenerated := 59 })
        INITIAL_GAME_STATE.plot }

/-- C1: over a state with a living non-rare tile at `seedsGenerated = 59`,
`treeLifespanSeeds = 60`, soil rate effect 1, summer (multiplier 2) and
sprinklers at level 0, one tick adds 1 to that tile's `seedsGenerated`
(reaching 60 and withering it in the same tick) and adds exactly
`1 × 2 = 2` to `resources.seeds`. -/
theorem C1_wither_same_tick_and_seed_gain :
    (gameTick c1State 0 []).1.resources.seeds = c1State.resources.seeds + 2 ∧
    (gameTick c1State 0 []).1.plot.head? = some
      { id := 0, hasTree := true, isWithered := true, seedsGenerated := 60,
        isGolden := false, isDiamond := false, rareExpiresAt := none } := by
  with_unfolding_all decide

/- ### C3 — scenario: the first plant from the initial state -/

/-- C3: from the canonical initial state, one Plant action debits
exactly 10 seeds (40 → 30), marks tile id 0 alive with reset growth and
rarity fields, sets `totalTreesPlanted` to 1, marks the milestone-1
idempotency flag, and emits the milestone-1 log exactly once. -/
theorem C3_first_plant_scenario :
    (handleAction INITIAL_GAME_STATE "plantTree" 0 []).1.resources.seeds = 30 ∧
    (handleAction INITIAL_GAME_STATE "plantTree" 0 []).1.plot.head? = some
      { id := 0, hasTree := true, isWithered := false, seedsGenerated := 0,
        isGolden := false, isDiamond := false, rareExpiresAt := none } ∧
    (handleAction INITIAL_GAME_STATE "plantTree" 0 []).1.totalTreesPlanted = 1 ∧
    lookupFlag (handleAction INITIAL_GAME_STATE "plantTree" 0 []).1.loggedMilestones "planted1" = true ∧
    (handleAction INITIAL_GAME_STATE "plantTree" 0 []).2 = ["Planted your first tree."] := by
  with_unfolding_all decide
-- appended experimentally
/- ### C4 — milestone requirement resolution and purchase gating -/

/-- The claim's resolution order, written from the spec's words: (a) an
explicit per-level override entry for the target level if present;
(b) with per-level milestone progression, the milestone-sequence entry
at the index of the base-required milestone offset by `targetLevel - 1`,
clamped to the last milestone when walking past the end (the flat value
itself if it is not in the sequence); (c) otherwise the flat
`requiresMilestone` gates target level 1 only. -/
def milestoneRequirementSpec (id : String) (targetLevel : Nat) : Option Nat :=
  if targetLevel = 0 then none
  else
    match findUpgrade id with
    | none => none
    | some u =>
      match u.levelMilestones.lookup targetLevel with
      | some v => some v
      | none =>
        match u.requiresMilestone with
        | some base =>
          if u.perLevelMilestoneProgression then
            match PLANTING_MILESTONES.indexOf? base with
            | some baseIndex =>
              some (PLANTING_MILESTONES.getD
                (min (baseIndex + (targetLevel - 1)) (PLANTING_MILESTONES.length - 1)) 0)
            | none => some base
          else if targetLevel = 1 then some base else none
        | none => none

/-- Clamping behaviour of the source's `?? last` fallback: reading the
milestone sequence with the last milestone as default equals reading it
at the index clamped to the end. -/
theorem pm_clamp (i : Nat) :
    PLANTING_MILESTONES.getD i (PLANTING_MILESTONES.getD (PLANTING_MILESTONES.length - 1) 0)
      = PLANTING_MILESTONES.getD (min i (PLANTING_MILESTONES.length - 1)) 0 := by
  rcases Nat.lt_or_ge i PLANTING_MILESTONES.length with h | h
  · have hi : i < 11 := by
      have hlen : PLANTING_MILESTONES.length = 11 := by decide
      omega
    interval_cases i <;> decide
  · have hlen : PLANTING_MILESTONES.length = 11 := by decide
    have h1 : PLANTING_MILESTONES.getD i (PLANTING_MILESTONES.getD (PLANTING_MILESTONES.length - 1) 0)
        = PLANTING_MILESTONES.getD (PLANTING_MILESTONES.length - 1) 0 :=
      List.getD_eq_default _ _ h
    have h2 : min i (PLANTING_MILESTONES.length - 1) = PLANTING_MILESTONES.length - 1 := by
      omega
    rw [h1, h2]

/-- The source resolver agrees with the spec's resolution order for
every upgrade whose override table has no zero values and whose flat
requirement is not zero (JavaScript truthiness makes those differ; the
catalog has no such entries). -/
theorem milestoneRequirement_eq_spec_aux (id : String) (L : Nat) (hL : 1 ≤ L)
    (h : ∀ u : UpgradeDef, findUpgrade id = some u →
      (∀ v, u.levelMilestones.lookup L = some v → v ≠ 0) ∧ u.requiresMilestone ≠ some 0) :
    getUpgradeMilestoneRequirement id L = milestoneRequirementSpec id L := by
  have hL0 : ¬ (L = 0) := by omega
  unfold getUpgradeMilestoneRequirement milestoneRequirementSpec
  simp only [hL0, if_false]
  cases hfind : findUpgrade id with
  | none => rfl
  | some u =>
    obtain ⟨hover, hbase⟩ := h u hfind
    cases hlk : u.levelMilestones.lookup L with
    | some v =>
      have hv := hover v hlk
      simp [hlk, hv]
    | none =>
      cases hreq : u.requiresMilestone with
      | none => simp [hlk, hreq]
      | some b =>
        have hb : b ≠ 0 := fun h0 => hbase (by rw [hreq, h0])
        by_cases hpl : u.perLevelMilestoneProgression
        · simp only [hlk, hreq, hpl, hb, Option.getD_some, Option.getD_none, ne_eq,
            not_false_iff, true_and, if_true, and_true]
          cases hidx : PLANTING_MILESTONES.indexOf? b with
          | none => simp
          | some i => simpa [List.getD, List.get?_eq_getElem?] using pm_clamp (i + (L - 1))
        · simp [hlk, hreq, hpl, hb]

/-- No catalog entry carries a zero-valued milestone gate, so JavaScript
truthiness never drops a gate. -/
theorem catalog_no_zero_gates (id : String) (u : UpgradeDef) (hfind : findUpgrade id = some u) :
    (∀ L v, u.levelMilestones.lookup L = some v → v ≠ 0) ∧ u.requiresMilestone ≠ some 0 := by
  have hu : u ∈ UPGRADES := List.mem_of_find?_eq_some hfind
  simp only [UPGRADES, List.mem_cons, List.not_mem_nil, or_false] at hu
  rcases hu with rfl|rfl|rfl|rfl|rfl|rfl|rfl|rfl|rfl|rfl|rfl|rfl|rfl|rfl|rfl|rfl|rfl <;>
    refine ⟨fun L v hlv => ?_, by simp⟩ <;>
    simp only [List.lookup] at hlv <;>
    first
      | simp at hlv
      | (split at hlv <;> simp_all <;> omega)

/-- The resolver never returns the gate value 0. -/
theorem milestoneRequirement_ne_some_zero (id : String) (L : Nat) :
    getUpgradeMilestoneRequirement id L ≠ some 0 := by
  unfold getUpgradeMilestoneRequirement
  by_cases hL0 : L = 0
  · simp [hL0]
  · simp only [hL0, if_false]
    cases hfind : findUpgrade id with
    | none => simp
    | some u =>
      obtain ⟨hover, hbase⟩ := catalog_no_zero_gates id u hfind
      cases hlk : u.levelMilestones.lookup L with
      | some v =>
        have hv := hover L v hlk
        simp [hlk, hv]
      | none =>
        simp only [hlk, Option.getD_none, ne_eq, not_true_eq_false, if_false]
        cases hreq : u.requiresMilestone with
        | none => simp
        | some b =>
          have hb : b ≠ 0 := fun h0 => hbase (by rw [hreq, h0])
          by_cases hpl : u.perLevelMilestoneProgression
          · simp only [hreq, hpl, Option.getD_some, true_and, hb, not_false_iff, if_true]
            cases hidx : PLANTING_MILESTONES.indexOf? b with
            | none => simp [hb]
            | some i =>
              have hval : PLANTING_MILESTONES.getD (i + (L - 1))
                  (PLANTING_MILESTONES.getD (PLANTING_MILESTONES.length - 1) 0) ≠ 0 := by
                rw [pm_clamp]
                have hmin : min (i + (L - 1)) (PLANTING_MILESTONES.length - 1) < 11 := by
                  have : PLANTING_MILESTONES.length = 11 := by decide
                  omega
                set j := min (i + (L - 1)) (PLANTING_MILESTONES.length - 1) with hj
                interval_cases j <;> decide
              simpa using hval
          · rw [if_neg (by simp [hpl])]
            split <;> simp [hb]

/-- Every catalog upgrade id resolves in the catalog. -/
theorem findUpgrade_isSome (u : UpgradeDef) (hu : u ∈ UPGRADES) :
    (findUpgrade u.id).isSome := by
  rw [findUpgrade, List.find?_isSome]
  exact ⟨u, hu, by simp⟩

/-- The affordability failure cases of `canAffordUpgrade`, for a state
that has a level entry and a catalog cost for the id. -/
theorem canAfford_false_iff (s : GameState) (id : String) (lvl : Nat)
    (hlv : levelOf s.upgrades id = some lvl)
    (c : ℚ) (hcost : getUpgradeCost id lvl = some c) :
    canAffordUpgrade s id = some false ↔
      s.resources.seeds < c ∨
      (∃ r, getUpgradeMilestoneRequirement id (lvl + 1) = some r ∧ s.totalTreesPlanted < r) := by
  unfold canAffordUpgrade
  rw [hlv]
  simp only [hcost]
  by_cases hs : s.resources.seeds ≥ c
  · cases hres : getUpgradeMilestoneRequirement id (lvl + 1) with
    | none => simp [hres, hs, not_lt.mpr hs]
    | some r =>
      have hr : r ≠ 0 := fun h0 => milestoneRequirement_ne_some_zero id (lvl + 1) (h0 ▸ hres)
      by_cases ht : s.totalTreesPlanted < r
      · simp [hres, hs, hr, ht, not_lt.mpr hs]
      · simp [hres, hs, hr, ht, not_lt.mpr hs]
  · have hs' : s.resources.seeds < c := not_le.mp hs
    simp only [ge_iff_le, decide_eq_true_eq]
    rw [if_pos]
    · simp [hs']
    · simp [hs]

/-- C4: for every catalog upgrade and target level ≥ 1 the milestone
requirement resolves by (a) per-level override, (b) milestone-sequence
walk with end clamping, (c) flat requirement for level 1 only; and
`canAffordUpgrade` (hence buying, which is guarded by it) fails exactly
when seeds are below the cost or `totalTreesPlanted` is below the
resolved requirement. -/
theorem C4_milestone_resolution_order_and_gating :
    (∀ u ∈ UPGRADES, ∀ L, 1 ≤ L →
      getUpgradeMilestoneRequirement u.id L = milestoneRequirementSpec u.id L) ∧
    (∀ u ∈ UPGRADES, ∀ s : GameState, ∀ lvl, levelOf s.upgrades u.id = some lvl →
      (canAffordUpgrade s u.id = some false ↔
        s.resources.seeds < (getUpgradeCost u.id lvl).getD 0 ∨
        (∃ r, getUpgradeMilestoneRequirement u.id (lvl + 1) = some r ∧
          s.totalTreesPlanted < r))) ∧
    (∀ s : GameState, ∀ id, canAffordUpgrade s id = some false →
      handleBuyUpgrade s id = some (s, [])) := by
  refine ⟨?_, ?_, ?_⟩
  · intro u hu L hL
    apply milestoneRequirement_eq_spec_aux _ _ hL
    intro u' hfind
    obtain ⟨h1, h2⟩ := catalog_no_zero_gates _ _ hfind
    exact ⟨fun v hv => h1 L v hv, h2⟩
  · intro u hu s lvl hlv
    have hsome : (findUpgrade u.id).isSome := findUpgrade_isSome u hu
    have hcost : (getUpgradeCost u.id lvl).isSome := by
      unfold getUpgradeCost
      cases h : findUpgrade u.id with
      | none => rw [h] at hsome; simp at hsome
      | some w => simp [h]
    cases hc : getUpgradeCost u.id lvl with
    | none => rw [hc] at hcost; simp at hcost
    | some c => simpa [hc] using canAfford_false_iff s u.id lvl hlv c hc
  · intro s id h
    unfold handleBuyUpgrade
    rw [h]

/-- Witness for C4 at concrete inputs: the `sunCore` per-level walk at
target level 3 and the `seedVault` gate at the initial state. -/
theorem C4_witness :
    getUpgradeMilestoneRequirement "sunCore" 3 = milestoneRequirementSpec "sunCore" 3 ∧
    (canAffordUpgrade INITIAL_GAME_STATE "seedVault" = some false ↔
      INITIAL_GAME_STATE.resources.seeds < (getUpgradeCost "seedVault" 0).getD 0 ∨
      (∃ r, getUpgradeMilestoneRequirement "seedVault" 1 = some r ∧
        INITIAL_GAME_STATE.totalTreesPlanted < r)) ∧
    handleBuyUpgrade INITIAL_GAME_STATE "seedVault" = some (INITIAL_GAME_STATE, []) := by
  refine ⟨?_, ?_, C4_milestone_resolution_order_and_gating.2.2 INITIAL_GAME_STATE "seedVault"
    (by with_unfolding_all decide)⟩
  · exact C4_milestone_resolution_order_and_gating.1 (UPGRADES.get ⟨8, by decide⟩)
      (UPGRADES.get_mem 8 (by decide)) 3 (by decide)
  · exact C4_milestone_resolution_order_and_gating.2.1 (UPGRADES.get ⟨10, by decide⟩)
      (UPGRADES.get_mem 10 (by decide)) INITIAL_GAME_STATE 0 (by with_unfolding_all decide)

/- ### C5 — weighted event selection -/

/-- Sum of the first `k` weights of the filtered event list. -/
def weightsTake (es : List EventDef) (k : Nat) : ℚ :=
  ((es.take k).map (fun e => e.weight)).sum

/-- The claim's description of the weighted pick: the event at the first
position whose cumulative weight exceeds the drawn value (positions in
catalog declaration order, which is also the tie-break order). -/
def selectEventSpec (r : ℚ) (es : List EventDef) : Option EventDef :=
  ((List.range es.length).find? (fun i => decide (r < weightsTake es (i + 1)))).bind
    (fun i => es.get? i)

/-- The source's subtract-until-negative walk picks exactly the first
event whose cumulative weight exceeds the drawn value. -/
theorem findByWeight_eq_spec (r : ℚ) (es : List EventDef) :
    findByWeight r es = selectEventSpec r es := by
  induction es generalizing r with
  | nil => rfl
  | cons e es ih =>
    unfold findByWeight selectEventSpec
    rw [List.length_cons, List.range_succ_eq_map]
    by_cases h : r - e.weight < 0
    · have h1 : decide (r < weightsTake (e :: es) (0 + 1)) = true := by
        simp only [weightsTake, List.take, List.map, List.sum_cons, List.sum_nil,
          decide_eq_true_eq]
        linarith
      rw [if_pos h]
      simp [List.find?_cons, h1]
    · have h1 : decide (r < weightsTake (e :: es) (0 + 1)) = false := by
        simp only [weightsTake, List.take, List.map, List.sum_cons, List.sum_nil,
          decide_eq_false_iff_not, not_lt]
        linarith
      rw [if_neg h]
      rw [List.find?_cons]
      simp only [h1]
      rw [List.find?_map]
      have hsum : ∀ i : Nat, weightsTake (e :: es) (i + 1 + 1) = e.weight + weightsTake es (i + 1) := by
        intro i
        simp [weightsTake, List.take_succ_cons]
      have hcond : ((fun i => decide (r < weightsTake (e :: es) (i + 1))) ∘ Nat.succ)
          = fun i => decide ((r - e.weight) < weightsTake es (i + 1)) := by
        funext i
        simp only [Function.comp_apply]
        rw [decide_eq_decide]
        rw [show Nat.succ i + 1 = i + 1 + 1 from rfl, hsum i]
        constructor <;> intro <;> linarith
      rw [hcond, ih (r - e.weight)]
      unfold selectEventSpec
      cases hfind : List.find? (fun i => decide (r - e.weight < weightsTake es (i + 1)))
          (List.range es.length) with
      | none => simp [hfind]
      | some j => simp [hfind]

/-- C5: on a successful roll the catalog is filtered by `canTrigger`; an
empty filtered list fires nothing; otherwise the uniform draw is scaled
by the total weight and the event at the first position whose cumulative
weight exceeds it (catalog declaration order) is applied. -/
theorem C5_weighted_event_selection (s : GameState) (now : Nat) (q1 q2 : ℚ) (rest : Rng) :
    (¬ q1 < eventChanceOf s → eventPhase s now (q1 :: rest) = (s, [], rest)) ∧
    (q1 < eventChanceOf s → possibleEventsOf s = [] →
      eventPhase s now (q1 :: q2 :: rest) = (s, [], q2 :: rest)) ∧
    (q1 < eventChanceOf s → possibleEventsOf s ≠ [] →
      eventPhase s now (q1 :: q2 :: rest) =
        match selectEventSpec (q2 * totalWeightOf (possibleEventsOf s)) (possibleEventsOf s) with
        | none => (s, [], rest)
        | some e => applyTriggeredEvent s now e rest) := by
  refine ⟨?_, ?_, ?_⟩
  · intro h
    simp [eventPhase, rngNext, h]
  · intro h hempty
    simp [eventPhase, rngNext, h, hempty]
  · intro h hne
    have hlen : (possibleEventsOf s).length > 0 := List.length_pos.mpr hne
    simp only [eventPhase, rngNext]
    rw [if_pos h, if_pos hlen, findByWeight_eq_spec]

/-- Witness for C5: a successful roll over the C1 state (one living
tile) with draw 0, which selects the first filtered event. -/
theorem C5_witness :
    eventPhase c1State 0 [0, 0] =
      match selectEventSpec (0 * totalWeightOf (possibleEventsOf c1State))
          (possibleEventsOf c1State) with
      | none => (c1State, [], [])
      | some e => applyTriggeredEvent c1State 0 e [] :=
  (C5_weighted_event_selection c1State 0 0 0 []).2.2
    (by with_unfolding_all decide)
    (List.ne_nil_of_length_pos (by with_unfolding_all decide))

/- ### C6 — validation no-ops and the unknown-id failure -/

/-- The Plant action's precondition: an empty tile, spare capacity, and
enough seeds for the current planting cost. -/
def plantPrecondition (s : GameState) : Prop :=
  (s.plot.any fun t => !t.hasTree) = true ∧
  (s.plot.filter (fun t => t.hasTree)).length < s.plot.length ∧
  s.resources.seeds ≥ calculatePlantingCost ((s.plot.filter (fun t => t.hasTree)).length)
    s.costs.tree s.upgrades.seedVault

/-- C6 counterexample: `BuyUpgrade` with an id that has no entry in the
upgrades map does not silently no-op — `canAffordUpgrade` reads `.level`
of `undefined` and a `TypeError` is raised (modelled as `none`),
contradicting the claim that no precondition failure raises an error. -/
theorem C6_counterexample_unknown_id_raises :
    handleBuyUpgrade INITIAL_GAME_STATE "bogusUpgrade" = none := by
  with_unfolding_all decide

/-- C6 (amended): for Plant, ClearWithered and BuyUpgrade with a known
catalog id, a failed precondition (no empty tile / capacity / seeds; no
withered tile; unaffordable or milestone-gated purchase) leaves the
state structurally unchanged and emits no log line; Gather has no
failing precondition; but BuyUpgrade with an unknown catalog id raises
a `TypeError` instead of no-opping.  The `peakSeeds ≤`-hypothesis is the
data-model invariant `peakSeeds` is a running maximum of `seeds`. -/
theorem C6_failed_preconditions_are_silent_noops :
    (∀ (s : GameState) (now : Nat) (rng : Rng), s.resources.seeds ≤ s.peakSeeds →
      ¬ plantPrecondition s → handleAction s "plantTree" now rng = (s, [])) ∧
    (∀ (s : GameState) (now : Nat) (rng : Rng), s.resources.seeds ≤ s.peakSeeds →
      s.plot.find? (fun t => t.isWithered) = none →
      handleAction s "clearWithered" now rng = (s, [])) ∧
    (∀ (s : GameState) (id : String), canAffordUpgrade s id = some false →
      handleBuyUpgrade s id = some (s, [])) ∧
    (∀ (s : GameState) (id : String), levelOf s.upgrades id = none →
      handleBuyUpgrade s id = none) := by
  refine ⟨?_, ?_, ?_, ?_⟩
  · intro s now rng hpeak hfail
    have h1 : ¬ (("plantTree" : String) = "gatherSeeds") := by decide
    have h2 : (("plantTree" : String) = "plantTree") := rfl
    have hfail' : ¬ ((s.plot.any fun t => !t.hasTree) = true ∧
        (List.filter (fun t => t.hasTree) s.plot).length < s.plot.length ∧
        s.resources.seeds ≥ calculatePlantingCost
          (List.filter (fun t => t.hasTree) s.plot).length s.costs.tree s.upgrades.seedVault) :=
      hfail
    unfold handleAction
    simp only [if_neg h1, if_pos h2, if_neg hfail', if_true]
    rw [max_eq_left hpeak]
  · intro s now rng hpeak hnone
    have h1 : ¬ (("clearWithered" : String) = "gatherSeeds") := by decide
    have h2 : ¬ (("clearWithered" : String) = "plantTree") := by decide
    have h3 : (("clearWithered" : String) = "clearWithered") := rfl
    unfold handleAction
    simp only [if_neg h1, if_neg h2, if_pos h3, hnone, if_true]
    rw [max_eq_left hpeak]
  · intro s id h
    unfold handleBuyUpgrade
    rw [h]
  · intro s id h
    unfold handleBuyUpgrade canAffordUpgrade
    rw [h]

/-- Witness for C6 (amended): at the canonical initial state the
ClearWithered action is a silent no-op (no withered tile exists). -/
theorem C6_witness :
    handleAction INITIAL_GAME_STATE "clearWithered" 0 [] = (INITIAL_GAME_STATE, []) :=
  C6_failed_preconditions_are_silent_noops.2.1 INITIAL_GAME_STATE 0 []
    (by with_unfolding_all decide) (by with_unfolding_all decide)

/- ### C7 — serialization round trip -/

/-- C7: deserializing the serialization of a well-formed state — the
field-by-field merge against the canonical default state followed by
re-deriving `peakSeeds` as `max(persisted peak, persisted seeds)` —
returns a structurally equal state.  Well-formedness is the data-model
invariant that `peakSeeds` is a running maximum of `seeds`. -/
theorem C7_save_load_round_trip (s : GameState) (hpeak : s.resources.seeds ≤ s.peakSeeds) :
    loadSavedGame (serializeGame s) = s := by
  unfold loadSavedGame serializeGame
  simp only [Option.getD_some]
  rw [max_eq_left hpeak]

/-- Witness for C7 at the canonical initial state (peak 40 ≥ seeds 40). -/
theorem C7_witness : loadSavedGame (serializeGame INITIAL_GAME_STATE) = INITIAL_GAME_STATE :=
  C7_save_load_round_trip INITIAL_GAME_STATE (by with_unfolding_all decide)

/- ### Shared facts for the reachability invariants (C8, C9, C10) -/

/-- The rarity-exclusivity predicate on one tile. -/
def rarityOK (t : PlotTile) : Prop := ¬ (t.isGolden = true ∧ t.isDiamond = true)

/-- Rarity exclusivity over a whole plot. -/
def PlotOK (l : List PlotTile) : Prop := ∀ t ∈ l, rarityOK t

/-- Every catalog effect is nonnegative at every level. -/
theorem getUpgradeEffect_nonneg (id : String) (lvl : Nat) : 0 ≤ getUpgradeEffect id lvl := by
  unfold getUpgradeEffect
  split
  · exact le_refl 0
  · next u heq =>
    have hu : u ∈ UPGRADES := List.mem_of_find?_eq_some heq
    simp only [UPGRADES, List.mem_cons, List.not_mem_nil, or_false] at hu
    rcases hu with rfl|rfl|rfl|rfl|rfl|rfl|rfl|rfl|rfl|rfl|rfl|rfl|rfl|rfl|rfl|rfl|rfl <;>
      (split <;>
        first
          | (norm_num; done)
          | (split <;>
              first
                | (norm_num; done)
                | positivity
                | exact le_max_left 0 _
                | exact le_trans (by norm_num) (le_max_left 1 _)
                | exact le_min (by norm_num) (by positivity)))

/-- Season multipliers are nonnegative. -/
theorem season_multiplier_nonneg (m : Season) : 0 ≤ SEASON_MULTIPLIERS m := by
  cases m <;> norm_num [SEASON_MULTIPLIERS]

/-- `updateFirstWhere` preserves a plot-wide property when the update
does. -/
theorem PlotOK_updateFirstWhere {p : PlotTile → Bool} {f : PlotTile → PlotTile}
    (hf : ∀ t, rarityOK t → rarityOK (f t)) :
    ∀ {l : List PlotTile}, PlotOK l → PlotOK (updateFirstWhere p f l) := by
  intro l
  induction l with
  | nil => intro h; exact h
  | cons t ts ih =>
    intro h
    unfold updateFirstWhere
    split
    · intro x hx
      rcases List.mem_cons.mp hx with rfl | hx
      · exact hf t (h t (List.mem_cons_self t ts))
      · exact h x (List.mem_cons_of_mem t hx)
    · intro x hx
      rcases List.mem_cons.mp hx with rfl | hx
      · exact h x (List.mem_cons_self x ts)
      · exact ih (fun y hy => h y (List.mem_cons_of_mem t hy)) x hx

/-- `updateAtIdx` preserves a plot-wide property when the update does. -/
theorem PlotOK_updateAtIdx {f : PlotTile → PlotTile}
    (hf : ∀ t, rarityOK t → rarityOK (f t)) :
    ∀ (i : Nat) {l : List PlotTile}, PlotOK l → PlotOK (updateAtIdx i f l) := by
  intro i l
  induction l generalizing i with
  | nil => intro h; unfold updateAtIdx; exact h
  | cons t ts ih =>
    intro h
    unfold updateAtIdx
    cases i with
    | zero =>
      intro x hx
      rcases List.mem_cons.mp hx with rfl | hx
      · exact hf t (h t (List.mem_cons_self t ts))
      · exact h x (List.mem_cons_of_mem t hx)
    | succ n =>
      intro x hx
      rcases List.mem_cons.mp hx with rfl | hx
      · exact h x (List.mem_cons_self x ts)
      · exact ih n (fun y hy => h y (List.mem_cons_of_mem t hy)) x hx

/-- `List.map` preserves a plot-wide property when the function does. -/
theorem PlotOK_map {f : PlotTile → PlotTile}
    (hf : ∀ t, rarityOK t → rarityOK (f t)) {l : List PlotTile} (h : PlotOK l) :
    PlotOK (l.map f) := by
  intro x hx
  rcases List.mem_map.mp hx with ⟨t, ht, rfl⟩
  exact hf t (h t ht)

/-- The festival loop preserves rarity exclusivity: it only paints
tiles golden with the diamond flag cleared. -/
theorem festivalLoop_PlotOK (now : Nat) (healthyIdx : List Nat) :
    ∀ (k : Nat) (plot : List PlotTile) (rng : Rng), PlotOK plot →
      PlotOK (festivalLoop now healthyIdx k plot rng).1 := by
  intro k
  induction k with
  | zero => intro plot rng h; exact h
  | succ n ih =>
    intro plot rng h
    unfold festivalLoop
    apply ih
    split
    · apply PlotOK_updateAtIdx _ _ h
      intro t _
      simp [rarityOK]
    · exact h

/-- A map-update that leaves both rarity flags untouched preserves
rarity exclusivity. -/
theorem rarityOK_of_flags_eq {t t' : PlotTile} (hg : t'.isGolden = t.isGolden)
    (hd : t'.isDiamond = t.isDiamond) (h : rarityOK t) : rarityOK t' := by
  unfold rarityOK at h ⊢
  rw [hg, hd]
  exact h

/-- The conjunction of facts each event mutator must preserve. -/
def EventApplyOK (f : GameState → Nat → Rng → GameState × Rng) : Prop :=
  ∀ (s : GameState) (now : Nat) (rng : Rng),
    (0 ≤ s.resources.seeds → 0 ≤ (f s now rng).1.resources.seeds) ∧
    (f s now rng).1.milestoneBonuses = s.milestoneBonuses ∧
    (f s now rng).1.totalTreesPlanted = s.totalTreesPlanted ∧
    (f s now rng).1.upgrades = s.upgrades ∧
    (PlotOK s.plot → PlotOK (f s now rng).1.plot)

theorem bountifulHarvestApply_ok : EventApplyOK bountifulHarvestApply := by
  intro s now rng
  refine ⟨fun h => ?_, rfl, rfl, rfl, fun h => h⟩
  unfold bountifulHarvestApply
  dsimp only
  positivity

theorem diamondSaplingApply_ok : EventApplyOK diamondSaplingApply := by
  intro s now rng
  unfold diamondSaplingApply
  split
  · exact ⟨fun h => h, rfl, rfl, rfl, fun h =>
      PlotOK_updateFirstWhere (fun t _ => by simp [rarityOK]) h⟩
  · split
    · exact ⟨fun h => h, rfl, rfl, rfl, fun h =>
        PlotOK_updateFirstWhere (fun t _ => by simp [rarityOK]) h⟩
    · exact ⟨fun h => h, rfl, rfl, rfl, fun h => h⟩

theorem goldenSaplingApply_ok : EventApplyOK goldenSaplingApply := by
  intro s now rng
  unfold goldenSaplingApply
  split
  · exact ⟨fun h => h, rfl, rfl, rfl, fun h =>
      PlotOK_updateFirstWhere (fun t _ => by simp [rarityOK]) h⟩
  · split
    · exact ⟨fun h => h, rfl, rfl, rfl, fun h =>
        PlotOK_updateFirstWhere (fun t _ => by simp [rarityOK]) h⟩
    · exact ⟨fun h => h, rfl, rfl, rfl, fun h => h⟩

theorem changeSeasonApply_ok (target : Season) : EventApplyOK (changeSeasonApply target) :=
  fun _ _ _ => ⟨fun h => h, rfl, rfl, rfl, fun h => h⟩

theorem gentleRainApply_ok : EventApplyOK gentleRainApply := by
  intro s now rng
  exact ⟨fun h => h, rfl, rfl, rfl, fun h =>
    PlotOK_map (fun t ht => by
      split
      · exact rarityOK_of_flags_eq rfl rfl ht
      · exact ht) h⟩

theorem hummingbirdFestivalApply_ok : EventApplyOK hummingbirdFestivalApply := by
  intro s now rng
  unfold hummingbirdFestivalApply
  dsimp only
  split
  · exact ⟨fun h => h, rfl, rfl, rfl, fun h => h⟩
  · cases hfest : festivalLoop now
        ((s.plot.enum.filter (fun p => livingTile p.2)).map (fun p => p.1))
        (min 2 ((s.plot.enum.filter (fun p => livingTile p.2)).map (fun p => p.1)).length)
        s.plot rng with
    | mk plot2 rng2 =>
      refine ⟨fun h => h, rfl, rfl, rfl, fun h => ?_⟩
      have := festivalLoop_PlotOK now
        ((s.plot.enum.filter (fun p => livingTile p.2)).map (fun p => p.1))
        (min 2 ((s.plot.enum.filter (fun p => livingTile p.2)).map (fun p => p.1)).length)
        s.plot rng h
      rw [hfest] at this
      exact this

theorem wiltBlightApply_ok : EventApplyOK wiltBlightApply := by
  intro s now rng
  unfold wiltBlightApply
  dsimp only
  refine ⟨fun h => ?_, ?_, ?_, ?_, fun h => ?_⟩ <;>
    (repeat' split) <;>
    first
      | exact h
      | rfl
      | (refine PlotOK_updateAtIdx ?_ _ h; intro t ht; exact rarityOK_of_flags_eq rfl rfl ht)

theorem wanderingMerchantApply_ok : EventApplyOK wanderingMerchantApply := by
  intro s now rng
  refine ⟨fun h => ?_, rfl, rfl, rfl, fun h => h⟩
  unfold wanderingMerchantApply
  dsimp only
  have hfl : (0 : ℤ) ≤ ((s.totalTreesPlanted : ℚ) * 1.5).floor := by
    rw [Rat.le_floor]
    push_cast
    positivity
  have hq : (0 : ℚ) ≤ (((s.totalTreesPlanted : ℚ) * 1.5).floor : ℚ) := by exact_mod_cast hfl
  linarith

/-- Every cataloged event's mutator preserves the shared facts. -/
theorem event_apply_facts (e : EventDef) (he : e ∈ EVENTS) : EventApplyOK e.apply := by
  simp only [EVENTS, List.mem_cons, List.not_mem_nil, or_false] at he
  rcases he with rfl|rfl|rfl|rfl|rfl|rfl|rfl|rfl|rfl|rfl|rfl
  · exact bountifulHarvestApply_ok
  · exact diamondSaplingApply_ok
  · exact goldenSaplingApply_ok
  · exact changeSeasonApply_ok Season.spring
  · exact changeSeasonApply_ok Season.summer
  · exact changeSeasonApply_ok Season.autumn
  · exact changeSeasonApply_ok Season.winter
  · exact gentleRainApply_ok
  · exact hummingbirdFestivalApply_ok
  · exact wiltBlightApply_ok
  · exact wanderingMerchantApply_ok

/-- The weighted walk only ever picks a member of the list. -/
theorem findByWeight_mem {r : ℚ} {es : List EventDef} {e : EventDef}
    (h : findByWeight r es = some e) : e ∈ es := by
  induction es generalizing r with
  | nil => simp [findByWeight] at h
  | cons ehd etl ih =>
    unfold findByWeight at h
    split at h
    · simp only [Option.some.injEq] at h
      subst h
      exact List.mem_cons_self _ _
    · exact List.mem_cons_of_mem _ (ih h)

/-- Candidate events are drawn from the fixed catalog. -/
theorem possibleEventsOf_subset {e : EventDef} {s : GameState}
    (h : e ∈ possibleEventsOf s) : e ∈ EVENTS := by
  unfold possibleEventsOf at h
  exact List.mem_of_mem_filter h

/-- The season phase only touches the season fields. -/
theorem seasonPhase_facts (s : GameState) :
    (seasonPhase s).1.resources = s.resources ∧
    (seasonPhase s).1.milestoneBonuses = s.milestoneBonuses ∧
    (seasonPhase s).1.totalTreesPlanted = s.totalTreesPlanted ∧
    (seasonPhase s).1.upgrades = s.upgrades ∧
    (seasonPhase s).1.plot = s.plot := by
  unfold seasonPhase
  split
  · exact ⟨rfl, rfl, rfl, rfl, rfl⟩
  · split
    · exact ⟨rfl, rfl, rfl, rfl, rfl⟩
    · exact ⟨rfl, rfl, rfl, rfl, rfl⟩

/-- Applying a triggered catalog event preserves the shared facts. -/
theorem applyTriggeredEvent_facts (s : GameState) (now : Nat) (e : EventDef)
    (he : e ∈ EVENTS) (rng : Rng) :
    (0 ≤ s.resources.seeds → 0 ≤ (applyTriggeredEvent s now e rng).1.resources.seeds) ∧
    (applyTriggeredEvent s now e rng).1.milestoneBonuses = s.milestoneBonuses ∧
    (applyTriggeredEvent s now e rng).1.totalTreesPlanted = s.totalTreesPlanted ∧
    (applyTriggeredEvent s now e rng).1.upgrades = s.upgrades ∧
    (PlotOK s.plot → PlotOK (applyTriggeredEvent s now e rng).1.plot) := by
  obtain ⟨h1, h2, h3, h4, h5⟩ := event_apply_facts e he s now rng
  unfold applyTriggeredEvent
  cases happ : e.apply s now rng with
  | mk s2 rng3 =>
    rw [happ] at h1 h2 h3 h4 h5
    by_cases hs : e.id.startsWith "changeTo" = true
    · simp only [if_pos hs]
      exact ⟨h1, h2, h3, h4, h5⟩
    · simp only [if_neg hs]
      exact ⟨h1, h2, h3, h4, h5⟩

/-- The event phase preserves the shared facts. -/
theorem eventPhase_facts (s : GameState) (now : Nat) (rng : Rng) :
    (0 ≤ s.resources.seeds → 0 ≤ (eventPhase s now rng).1.resources.seeds) ∧
    (eventPhase s now rng).1.milestoneBonuses = s.milestoneBonuses ∧
    (eventPhase s now rng).1.totalTreesPlanted = s.totalTreesPlanted ∧
    (eventPhase s now rng).1.upgrades = s.upgrades ∧
    (PlotOK s.plot → PlotOK (eventPhase s now rng).1.plot) := by
  unfold eventPhase
  cases hr1 : rngNext rng with
  | mk q1 rng1 =>
    dsimp only
    by_cases hq : q1 < eventChanceOf s
    · simp only [if_pos hq]
      by_cases hl : (possibleEventsOf s).length > 0
      · simp only [if_pos hl]
        cases hr2 : rngNext rng1 with
        | mk q2 rng2 =>
          dsimp only
          cases hfind : findByWeight (q2 * totalWeightOf (possibleEventsOf s))
              (possibleEventsOf s) with
          | none =>
            simp only [hfind]
            exact ⟨fun h => h, trivial, trivial, trivial, fun h => h⟩
          | some e =>
            simp only [hfind]
            exact applyTriggeredEvent_facts s now e
              (possibleEventsOf_subset (findByWeight_mem hfind)) rng2
      · simp only [if_neg hl]
        exact ⟨fun h => h, trivial, trivial, trivial, fun h => h⟩
    · simp only [if_neg hq]
      exact ⟨fun h => h, trivial, trivial, trivial, fun h => h⟩

theorem lookup_map_set (m : List (String × Bool)) (k k' : String) (v : Bool) :
    (m.map (fun p => if p.1 = k' then (k', v) else p)).lookup k =
      if k = k' then (m.lookup k').map (fun _ => v) else m.lookup k := by
  induction m with
  | nil => by_cases h : k = k' <;> simp [h]
  | cons a m ih =>
    obtain ⟨a1, a2⟩ := a
    by_cases h1 : a1 = k'
    · by_cases h2 : k = k'
      · subst h1; subst h2
        simp [List.lookup_cons]
      · simp [List.lookup_cons, if_pos h1, if_neg h2, beq_false_of_ne h2,
          beq_false_of_ne (fun hh : k = a1 => h2 (hh.trans h1)), ih]
    · by_cases h2 : k = k'
      · subst h2
        simp [List.lookup_cons, if_neg h1,
          beq_false_of_ne (fun hh : k = a1 => h1 hh.symm), ih]
      · by_cases h3 : k = a1
        · subst h3
          simp [List.lookup_cons, if_neg h1, beq_false_of_ne h2, if_neg h2]
        · simp [List.lookup_cons, if_neg h1, beq_false_of_ne h3, if_neg h2, ih]

theorem lookup_append_assoc (m tl : List (String × Bool)) (k : String) :
    (m ++ tl).lookup k = ((m.lookup k).or (tl.lookup k)) := by
  induction m with
  | nil => simp
  | cons a m ih =>
    obtain ⟨a1, a2⟩ := a
    by_cases h : k = a1
    · subst h
      simp [List.lookup_cons]
    · simp [List.lookup_cons, beq_false_of_ne h, ih]

/-- Setting any key to `true` never turns an already-`true` flag off. -/
theorem lookupFlag_setFlag_mono {m : List (String × Bool)} {k : String} (k' : String)
    (h : lookupFlag m k = true) : lookupFlag (setFlag m k' true) k = true := by
  unfold lookupFlag at h ⊢
  unfold setFlag
  split
  · rw [lookup_map_set]
    by_cases h2 : k = k'
    · subst h2
      cases hm : m.lookup k with
      | none => simp [hm] at h
      | some b => simp [hm]
    · simp only [if_neg h2]
      exact h
  · rw [lookup_append_assoc]
    cases hm : m.lookup k with
    | none => simp [hm] at h
    | some b =>
      simp only [hm, Option.or_some]
      simpa [hm] using h

/-- `scheduleRareExpiry` only stamps the deadline; the rarity flags stay. -/
theorem scheduleRareExpiry_flags (now : Nat) (t : PlotTile) :
    (scheduleRareExpiry now t).isGolden = t.isGolden ∧
    (scheduleRareExpiry now t).isDiamond = t.isDiamond := by
  unfold scheduleRareExpiry
  split
  · exact ⟨rfl, rfl⟩
  · split
    · exact ⟨rfl, rfl⟩
    · exact ⟨rfl, rfl⟩

/-- `ensureRareExpiry` only stamps the deadline; the rarity flags stay. -/
theorem ensureRareExpiry_flags (now : Nat) (t : PlotTile) :
    (ensureRareExpiry now t).isGolden = t.isGolden ∧
    (ensureRareExpiry now t).isDiamond = t.isDiamond := by
  unfold ensureRareExpiry
  split
  · exact scheduleRareExpiry_flags now t
  · exact ⟨rfl, rfl⟩

/-- Stamping the rarity deadline preserves rarity exclusivity. -/
theorem rarityOK_scheduleRareExpiry (now : Nat) {t : PlotTile} (h : rarityOK t) :
    rarityOK (scheduleRareExpiry now t) :=
  rarityOK_of_flags_eq (scheduleRareExpiry_flags now t).1 (scheduleRareExpiry_flags now t).2 h

/-- A freshly planted tile has both rarity flags cleared. -/
theorem rarityOK_plantedTile (t : PlotTile) : rarityOK (plantedTile t) := by
  simp [rarityOK, plantedTile]

/-- A cleared tile has both rarity flags cleared. -/
theorem rarityOK_clearedTile (t : PlotTile) : rarityOK (clearedTile t) := by
  simp [rarityOK, clearedTile]

/-- The season phase never touches the milestone log. -/
theorem seasonPhase_logged (s : GameState) :
    (seasonPhase s).1.loggedMilestones = s.loggedMilestones := by
  unfold seasonPhase
  split
  · rfl
  · split
    · rfl
    · rfl

/-- No catalog event mutator touches the milestone log. -/
theorem event_apply_logged (e : EventDef) (he : e ∈ EVENTS) (s : GameState)
    (now : Nat) (rng : Rng) :
    (e.apply s now rng).1.loggedMilestones = s.loggedMilestones := by
  simp only [EVENTS, List.mem_cons, List.not_mem_nil, or_false] at he
  rcases he with rfl|rfl|rfl|rfl|rfl|rfl|rfl|rfl|rfl|rfl|rfl
  · rfl
  · show (diamondSaplingApply s now rng).1.loggedMilestones = s.loggedMilestones
    unfold diamondSaplingApply
    split
    · rfl
    · split
      · rfl
      · rfl
  · show (goldenSaplingApply s now rng).1.loggedMilestones = s.loggedMilestones
    unfold goldenSaplingApply
    split
    · rfl
    · split
      · rfl
      · rfl
  · rfl
  · rfl
  · rfl
  · rfl
  · rfl
  · show (hummingbirdFestivalApply s now rng).1.loggedMilestones = s.loggedMilestones
    unfold hummingbirdFestivalApply
    dsimp only
    split
    · rfl
    · cases hfest : festivalLoop now
          ((s.plot.enum.filter (fun p => livingTile p.2)).map (fun p => p.1))
          (min 2 ((s.plot.enum.filter (fun p => livingTile p.2)).map (fun p => p.1)).length)
          s.plot rng with
      | mk plot2 rng2 => rfl
  · show (wiltBlightApply s now rng).1.loggedMilestones = s.loggedMilestones
    unfold wiltBlightApply
    dsimp only
    (repeat' split) <;> rfl
  · rfl

/-- Applying a triggered event never touches the milestone log. -/
theorem applyTriggeredEvent_logged (s : GameState) (now : Nat) (e : EventDef)
    (he : e ∈ EVENTS) (rng : Rng) :
    (applyTriggeredEvent s now e rng).1.loggedMilestones = s.loggedMilestones := by
  have h := event_apply_logged e he s now rng
  unfold applyTriggeredEvent
  cases happ : e.apply s now rng with
  | mk s2 rng3 =>
    rw [happ] at h
    by_cases hs : e.id.startsWith "changeTo" = true
    · simp only [if_pos hs]
      exact h
    · simp only [if_neg hs]
      exact h

/-- The event phase never touches the milestone log. -/
theorem eventPhase_logged (s : GameState) (now : Nat) (rng : Rng) :
    (eventPhase s now rng).1.loggedMilestones = s.loggedMilestones := by
  unfold eventPhase
  cases hr1 : rngNext rng with
  | mk q1 rng1 =>
    dsimp only
    by_cases hq : q1 < eventChanceOf s
    · simp only [if_pos hq]
      by_cases hl : (possibleEventsOf s).length > 0
      · simp only [if_pos hl]
        cases hr2 : rngNext rng1 with
        | mk q2 rng2 =>
          dsimp only
          cases hfind : findByWeight (q2 * totalWeightOf (possibleEventsOf s))
              (possibleEventsOf s) with
          | none => simp only [hfind]
          | some e =>
            simp only [hfind]
            exact applyTriggeredEvent_logged s now e
              (possibleEventsOf_subset (findByWeight_mem hfind)) rng2
      · simp only [if_neg hl]
    · simp only [if_neg hq]

/-- The auto-planter phase: keeps seeds non-negative (the debit is
guarded by affordability), and leaves the bonuses, planted counter,
upgrades, rarity exclusivity and milestone log untouched. -/
theorem autoPlanterPhase_facts (s : GameState) (now : Nat) (rng : Rng) :
    (0 ≤ s.resources.seeds → 0 ≤ (autoPlanterPhase s now rng).1.resources.seeds) ∧
    (autoPlanterPhase s now rng).1.milestoneBonuses = s.milestoneBonuses ∧
    (autoPlanterPhase s now rng).1.totalTreesPlanted = s.totalTreesPlanted ∧
    (autoPlanterPhase s now rng).1.upgrades = s.upgrades ∧
    (PlotOK s.plot → PlotOK (autoPlanterPhase s now rng).1.plot) ∧
    (autoPlanterPhase s now rng).1.loggedMilestones = s.loggedMilestones := by
  unfold autoPlanterPhase
  by_cases h1 : s.upgrades.autoPlanter > 0
  · simp only [if_pos h1]
    by_cases h2 : ¬ s.plot.any (fun t => !t.hasTree)
    · simp only [if_pos h2]
      exact ⟨fun h => h, by trivial, by trivial, by trivial, fun h => h, by trivial⟩
    · simp only [if_neg h2]
      by_cases h3 : s.autoPlanterCooldown - 1 ≤ 0
      · simp only [if_pos h3]
        by_cases h4 : (s.plot.filter (fun t => t.hasTree)).length < s.plot.length ∧
            s.resources.seeds ≥ calculatePlantingCost
              (s.plot.filter (fun t => t.hasTree)).length s.costs.tree s.upgrades.seedVault
        · simp only [if_pos h4]
          cases hr : rngNext rng with
          | mk qf rng2 =>
            dsimp only
            refine ⟨fun _ => ?_, by trivial, by trivial, by trivial, fun hp => ?_, by trivial⟩
            · exact sub_nonneg.mpr h4.2
            · refine PlotOK_updateFirstWhere ?_ hp
              intro t _
              split
              · apply rarityOK_scheduleRareExpiry
                simp [rarityOK]
              · exact rarityOK_plantedTile t
        · simp only [if_neg h4]
          exact ⟨fun h => h, by trivial, by trivial, by trivial, fun h => h, by trivial⟩
      · simp only [if_neg h3]
        exact ⟨fun h => h, by trivial, by trivial, by trivial, fun h => h, by trivial⟩
  · simp only [if_neg h1]
    exact ⟨fun h => h, by trivial, by trivial, by trivial, fun h => h, by trivial⟩

/-- The auto-shovel phase: only ever credits a non-negative compost
bonus, and leaves the bonuses, planted counter, upgrades, rarity
exclusivity and milestone log untouched. -/
theorem autoShovelPhase_facts (s : GameState) :
    (0 ≤ s.resources.seeds → 0 ≤ (autoShovelPhase s).1.resources.seeds) ∧
    (autoShovelPhase s).1.milestoneBonuses = s.milestoneBonuses ∧
    (autoShovelPhase s).1.totalTreesPlanted = s.totalTreesPlanted ∧
    (autoShovelPhase s).1.upgrades = s.upgrades ∧
    (PlotOK s.plot → PlotOK (autoShovelPhase s).1.plot) ∧
    (autoShovelPhase s).1.loggedMilestones = s.loggedMilestones := by
  unfold autoShovelPhase
  by_cases h1 : s.upgrades.autoShovel > 0
  · simp only [if_pos h1]
    by_cases h2 : s.autoShovelCooldown - 1 ≤ 0
    · simp only [if_pos h2]
      cases hf : s.plot.find? (fun t => t.isWithered) with
      | some w =>
        dsimp only
        refine ⟨fun h => ?_, by trivial, by trivial, by trivial, fun hp => ?_, by trivial⟩
        · apply add_nonneg h
          have hc0 : (0:ℚ) ≤ getUpgradeEffect "shovel" s.upgrades.shovel
              + getUpgradeEffect "composter" s.upgrades.composter :=
            add_nonneg (getUpgradeEffect_nonneg _ _) (getUpgradeEffect_nonneg _ _)
          split
          · exact mul_nonneg hc0 (by norm_num)
          · split
            · exact mul_nonneg hc0 (by norm_num)
            · exact hc0
        · exact PlotOK_updateFirstWhere (fun t _ => rarityOK_clearedTile t) hp
      | none =>
        exact ⟨fun h => h, by trivial, by trivial, by trivial, fun h => h, by trivial⟩
    · simp only [if_neg h2]
      exact ⟨fun h => h, by trivial, by trivial, by trivial, fun h => h, by trivial⟩
  · simp only [if_neg h1]
    exact ⟨fun h => h, by trivial, by trivial, by trivial, fun h => h, by trivial⟩

/-- The gnome phase: only ever credits seeds, bumps the planted counter
by at most one, and leaves the bonuses, upgrades, rarity exclusivity and
milestone log untouched. -/
theorem gnomePhase_facts (s : GameState) (now : Nat) (rng : Rng) :
    (0 ≤ s.resources.seeds → 0 ≤ (gnomePhase s now rng).1.resources.seeds) ∧
    (gnomePhase s now rng).1.milestoneBonuses = s.milestoneBonuses ∧
    ((gnomePhase s now rng).1.totalTreesPlanted = s.totalTreesPlanted ∨
      (gnomePhase s now rng).1.totalTreesPlanted = s.totalTreesPlanted + 1) ∧
    (gnomePhase s now rng).1.upgrades = s.upgrades ∧
    (PlotOK s.plot → PlotOK (gnomePhase s now rng).1.plot) ∧
    (gnomePhase s now rng).1.loggedMilestones = s.loggedMilestones := by
  unfold gnomePhase
  by_cases h1 : s.upgrades.gnomeInterns > 0
  · simp only [if_pos h1]
    by_cases h2 : getUpgradeEffect "gnomeInterns" s.upgrades.gnomeInterns > 0
    · simp only [if_pos h2]
      cases hr : rngNext rng with
      | mk q rng1 =>
        dsimp only
        by_cases h3 : q * 100 < getUpgradeEffect "gnomeInterns" s.upgrades.gnomeInterns
        · simp only [if_pos h3]
          by_cases h4 : s.plot.any (fun t => !t.hasTree)
          · simp only [if_pos h4]
            cases hr2 : rngNext rng1 with
            | mk q2 rng2 =>
              dsimp only
              refine ⟨fun h => h, by trivial, by first | trivial | exact Or.inr trivial | exact Or.inr rfl | exact Or.inl trivial | exact Or.inl rfl, by trivial, fun hp => ?_, by trivial⟩
              refine PlotOK_updateFirstWhere ?_ hp
              intro t _
              split
              · apply rarityOK_scheduleRareExpiry
                simp [rarityOK]
              · exact rarityOK_plantedTile t
          · simp only [if_neg h4]
            refine ⟨fun h => ?_, by trivial, by first | trivial | exact Or.inl trivial | exact Or.inl rfl | exact Or.inr trivial | exact Or.inr rfl, by trivial, fun hp => hp, by trivial⟩
            have hsp : (0:ℚ) ≤ 10 + (s.upgrades.gnomeInterns : ℚ) * 5 := by positivity
            exact add_nonneg h hsp
        · simp only [if_neg h3]
          exact ⟨fun h => h, by trivial, by first | trivial | exact Or.inl trivial | exact Or.inl rfl | exact Or.inr trivial | exact Or.inr rfl, by trivial, fun h => h, by trivial⟩
    · simp only [if_neg h2]
      exact ⟨fun h => h, by trivial, by first | trivial | exact Or.inl trivial | exact Or.inl rfl | exact Or.inr trivial | exact Or.inr rfl, by trivial, fun h => h, by trivial⟩
  · simp only [if_neg h1]
    exact ⟨fun h => h, by trivial, by first | trivial | exact Or.inl trivial | exact Or.inl rfl | exact Or.inr trivial | exact Or.inr rfl, by trivial, fun h => h, by trivial⟩

/-- Without the gnome-intern upgrade the gnome phase is the identity. -/
theorem gnomePhase_level0 (s : GameState) (now : Nat) (rng : Rng)
    (h : s.upgrades.gnomeInterns = 0) : (gnomePhase s now rng).1 = s := by
  unfold gnomePhase
  rw [if_neg (by simp [h])]

set_option maxHeartbeats 2000000 in
/-- One growth step: the seed contribution is non-negative when the
generation rate is, and the rarity flags of the tile are untouched. -/
theorem growTile_facts (lifespan rate sprinklerChance : ℚ) (now : Nat)
    (t0 : PlotTile) (rng : Rng) (hrate : 0 ≤ rate) :
    0 ≤ (growTile lifespan rate sprinklerChance now t0 rng).2.1 ∧
    (growTile lifespan rate sprinklerChance now t0 rng).1.isGolden = t0.isGolden ∧
    (growTile lifespan rate sprinklerChance now t0 rng).1.isDiamond = t0.isDiamond := by
  unfold growTile
  by_cases h0 : (t0.hasTree && !t0.isWithered) = true
  · simp only [if_pos h0]
    by_cases hrare : (t0.isGolden || t0.isDiamond) = true
    · simp only [if_pos hrare]
      have hflags := ensureRareExpiry_flags now t0
      (repeat' split) <;>
        exact ⟨by first | exact le_refl 0 | exact mul_nonneg hrate (by norm_num),
          hflags.1, hflags.2⟩
    · simp only [if_neg hrare]
      (repeat' split) <;>
        exact ⟨by first | exact le_refl 0 | exact mul_nonneg hrate (by norm_num), rfl, rfl⟩
  · simp only [if_neg h0]
    exact ⟨le_refl 0, by trivial, by trivial⟩

/-- Cons unfolding of the growth fold (definitional). -/
theorem growthFold_cons (lifespan rate sprinklerChance : ℚ) (now : Nat)
    (t : PlotTile) (ts : List PlotTile) (rng : Rng) :
    growthFold lifespan rate sprinklerChance now (t :: ts) rng =
      ((growTile lifespan rate sprinklerChance now t rng).1 ::
          (growthFold lifespan rate sprinklerChance now ts
            (growTile lifespan rate sprinklerChance now t rng).2.2.2.2).1,
        (growTile lifespan rate sprinklerChance now t rng).2.1 +
          (growthFold lifespan rate sprinklerChance now ts
            (growTile lifespan rate sprinklerChance now t rng).2.2.2.2).2.1,
        (growTile lifespan rate sprinklerChance now t rng).2.2.1 +
          (growthFold lifespan rate sprinklerChance now ts
            (growTile lifespan rate sprinklerChance now t rng).2.2.2.2).2.2.1,
        (growTile lifespan rate sprinklerChance now t rng).2.2.2.1 ++
          (growthFold lifespan rate sprinklerChance now ts
            (growTile lifespan rate sprinklerChance now t rng).2.2.2.2).2.2.2.1,
        (growthFold lifespan rate sprinklerChance now ts
          (growTile lifespan rate sprinklerChance now t rng).2.2.2.2).2.2.2.2) := rfl

/-- The growth phase over the plot: total gain is non-negative when the
rate is, and rarity exclusivity is preserved tile by tile. -/
theorem growthFold_facts (lifespan rate sprinklerChance : ℚ) (now : Nat)
    (hrate : 0 ≤ rate) :
    ∀ (l : List PlotTile) (rng : Rng),
      0 ≤ (growthFold lifespan rate sprinklerChance now l rng).2.1 ∧
      (PlotOK l → PlotOK (growthFold lifespan rate sprinklerChance now l rng).1) := by
  intro l
  induction l with
  | nil => exact fun rng => ⟨le_refl 0, fun h => h⟩
  | cons t ts ih =>
    intro rng
    rw [growthFold_cons]
    obtain ⟨hg1, hg2, hg3⟩ := growTile_facts lifespan rate sprinklerChance now t rng hrate
    obtain ⟨hi1, hi2⟩ := ih (growTile lifespan rate sprinklerChance now t rng).2.2.2.2
    refine ⟨add_nonneg hg1 hi1, fun hp => ?_⟩
    intro x hx
    rcases List.mem_cons.mp hx with rfl | hx
    · exact rarityOK_of_flags_eq hg2 hg3 (hp t (List.mem_cons_self t ts))
    · exact hi2 (fun y hy => hp y (List.mem_cons_of_mem t hy)) x hx

set_option maxHeartbeats 1000000 in
/-- One full tick: keeps seeds non-negative, leaves the milestone
bonuses and upgrades untouched, bumps the planted counter by at most one
(the gnome phase), preserves rarity exclusivity, and never clears a
milestone-log flag. -/
theorem gameTick_facts (s0 : GameState) (now : Nat) (rng : Rng) :
    (0 ≤ s0.resources.seeds → 0 ≤ (gameTick s0 now rng).1.resources.seeds) ∧
    (gameTick s0 now rng).1.milestoneBonuses = s0.milestoneBonuses ∧
    ((gameTick s0 now rng).1.totalTreesPlanted = s0.totalTreesPlanted ∨
      (gameTick s0 now rng).1.totalTreesPlanted = s0.totalTreesPlanted + 1) ∧
    (gameTick s0 now rng).1.upgrades = s0.upgrades ∧
    (PlotOK s0.plot → PlotOK (gameTick s0 now rng).1.plot) ∧
    (∀ k, lookupFlag s0.loggedMilestones k = true →
      lookupFlag (gameTick s0 now rng).1.loggedMilestones k = true) ∧
    (s0.upgrades.gnomeInterns = 0 →
      (gameTick s0 now rng).1.totalTreesPlanted = s0.totalTreesPlanted) := by
  unfold gameTick
  cases h1 : seasonPhase s0 with
  | mk s1 logs1 =>
  dsimp only
  cases h2 : eventPhase s1 now rng with
  | mk s2 t2 =>
  cases t2 with
  | mk logs2 rng2 =>
  dsimp only
  cases h3 : autoPlanterPhase s2 now rng2 with
  | mk s3 t3 =>
  cases t3 with
  | mk logs3 rng3 =>
  dsimp only
  cases h4 : autoShovelPhase s3 with
  | mk s4 logs4 =>
  dsimp only
  cases h5 : gnomePhase s4 now rng3 with
  | mk s5 t5 =>
  cases t5 with
  | mk logs5 rng5 =>
  dsimp only
  obtain ⟨f1a, f1b, f1c, f1d, f1e⟩ := seasonPhase_facts s0
  have f1g := seasonPhase_logged s0
  rw [h1] at f1a f1b f1c f1d f1e f1g
  obtain ⟨f2a, f2b, f2c, f2d, f2e⟩ := eventPhase_facts s1 now rng
  have f2g := eventPhase_logged s1 now rng
  rw [h2] at f2a f2b f2c f2d f2e f2g
  obtain ⟨f3a, f3b, f3c, f3d, f3e, f3g⟩ := autoPlanterPhase_facts s2 now rng2
  rw [h3] at f3a f3b f3c f3d f3e f3g
  obtain ⟨f4a, f4b, f4c, f4d, f4e, f4g⟩ := autoShovelPhase_facts s3
  rw [h4] at f4a f4b f4c f4d f4e f4g
  obtain ⟨f5a, f5b, f5c, f5d, f5e, f5g⟩ := gnomePhase_facts s4 now rng3
  rw [h5] at f5a f5b f5c f5d f5e f5g
  dsimp only at f1a f1b f1c f1d f1e f1g f2a f2b f2c f2d f2e f2g
  dsimp only at f3a f3b f3c f3d f3e f3g f4a f4b f4c f4d f4e f4g
  dsimp only at f5a f5b f5c f5d f5e f5g
  obtain ⟨g1, g2⟩ := growthFold_facts s5.treeLifespanSeeds
    (getUpgradeEffect "betterSoil" s5.upgrades.betterSoil)
    (if s0.upgrades.sprinklers > 0 then getUpgradeEffect "sprinklers" s0.upgrades.sprinklers else 0)
    now (getUpgradeEffect_nonneg _ _) s5.plot rng5
  cases h6 : growthFold s5.treeLifespanSeeds
      (getUpgradeEffect "betterSoil" s5.upgrades.betterSoil)
      (if s0.upgrades.sprinklers > 0 then getUpgradeEffect "sprinklers" s0.upgrades.sprinklers else 0)
      now s5.plot rng5 with
  | mk plot' t6 =>
  cases t6 with
  | mk gain t7 =>
  cases t7 with
  | mk wc t8 =>
  cases t8 with
  | mk logs6 rngx =>
  rw [h6] at g1 g2
  dsimp only at g1 g2
  dsimp only
  have hseeds5 : 0 ≤ s0.resources.seeds → 0 ≤ s5.resources.seeds := by
    intro h
    apply f5a
    apply f4a
    apply f3a
    apply f2a
    rw [f1a]
    exact h
  have hbon : s5.milestoneBonuses = s0.milestoneBonuses :=
    f5b.trans (f4b.trans (f3b.trans (f2b.trans f1b)))
  have hcnt : s5.totalTreesPlanted = s0.totalTreesPlanted ∨
      s5.totalTreesPlanted = s0.totalTreesPlanted + 1 := by
    rcases f5c with hc | hc
    · exact Or.inl (hc.trans (f4c.trans (f3c.trans (f2c.trans f1c))))
    · right
      rw [hc, f4c, f3c, f2c, f1c]
  have hupg : s5.upgrades = s0.upgrades :=
    f5d.trans (f4d.trans (f3d.trans (f2d.trans f1d)))
  have hplot : PlotOK s0.plot → PlotOK plot' := by
    intro hp
    apply g2
    apply f5e
    apply f4e
    apply f3e
    apply f2e
    rw [f1e]
    exact hp
  have hlog : s5.loggedMilestones = s0.loggedMilestones :=
    f5g.trans (f4g.trans (f3g.trans (f2g.trans f1g)))
  have hg0 : s0.upgrades.gnomeInterns = 0 → s5.totalTreesPlanted = s0.totalTreesPlanted := by
    intro h0
    have h40 : s4.upgrades.gnomeInterns = 0 := by
      rw [f4d, f3d, f2d, f1d]
      exact h0
    have h5id := gnomePhase_level0 s4 now rng3 h40
    rw [h5] at h5id
    dsimp only at h5id
    rw [h5id, f4c, f3c, f2c, f1c]
  split
  · refine ⟨fun h => ?_, hbon, hcnt, hupg, fun hp => hplot hp, fun k hk => ?_,
      fun h0 => hg0 h0⟩
    · exact add_nonneg (hseeds5 h)
        (mul_nonneg g1 (season_multiplier_nonneg s5.currentSeason))
    · apply lookupFlag_setFlag_mono
      rw [hlog]
      exact hk
  · refine ⟨fun h => ?_, hbon, hcnt, hupg, fun hp => hplot hp, fun k hk => ?_,
      fun h0 => hg0 h0⟩
    · exact add_nonneg (hseeds5 h)
        (mul_nonneg g1 (season_multiplier_nonneg s5.currentSeason))
    · rw [hlog]
      exact hk

/-- Setting a key to `true` makes its flag read back `true`. -/
theorem lookupFlag_setFlag_self (m : List (String × Bool)) (k : String) :
    lookupFlag (setFlag m k true) k = true := by
  unfold lookupFlag setFlag
  split
  · next hsome =>
    rw [lookup_map_set]
    simp only [if_pos rfl]
    cases hm : m.lookup k with
    | none => rw [hm] at hsome; simp at hsome
    | some b => simp [hm]
  · next hnone =>
    have hm : m.lookup k = none := by
      cases hm : m.lookup k with
      | none => rfl
      | some b => rw [hm] at hnone; simp at hnone
    rw [lookup_append_assoc, hm]
    simp [List.lookup_cons]

/-- Rarity exclusivity over a concatenation. -/
theorem PlotOK_append {l1 l2 : List PlotTile} (h1 : PlotOK l1) (h2 : PlotOK l2) :
    PlotOK (l1 ++ l2) := by
  intro t ht
  rcases List.mem_append.mp ht with h | h
  · exact h1 t h
  · exact h2 t h

/-- A reward entry never decreases the permanent gather bonus. -/
def rewardAmountOK : MilestoneReward → Prop
  | MilestoneReward.gatherBonus amount _ => 0 ≤ amount
  | MilestoneReward.unlockUpgrade _ _ => True

instance (r : MilestoneReward) : Decidable (rewardAmountOK r) := by
  unfold rewardAmountOK
  cases r with
  | gatherBonus amount message => exact inferInstanceAs (Decidable (0 ≤ amount))
  | unlockUpgrade upgradeId message => exact inferInstanceAs (Decidable True)

/-- Every entry of the reward table credits a non-negative amount. -/
theorem milestone_rewards_amounts_ok :
    ∀ p ∈ MILESTONE_REWARDS, ∀ r ∈ p.2, rewardAmountOK r := by
  with_unfolding_all decide

/-- A successful keyed lookup exhibits a member of the list. -/
theorem lookup_mem_of_eq_some {α β : Type} [BEq α] [LawfulBEq α] {l : List (α × β)}
    {k : α} {v : β} (h : l.lookup k = some v) : (k, v) ∈ l := by
  induction l with
  | nil => simp [List.lookup] at h
  | cons a l ih =>
    obtain ⟨a1, a2⟩ := a
    rw [List.lookup_cons] at h
    by_cases hk : (k == a1) = true
    · simp only [hk] at h
      obtain rfl : a2 = v := by injection h
      obtain rfl : k = a1 := eq_of_beq hk
      exact List.mem_cons_self _ _
    · rw [Bool.not_eq_true] at hk
      simp only [hk] at h
      exact List.mem_cons_of_mem _ (ih h)

/-- Applying reward entries with non-negative amounts keeps the gather
bonus non-negative. -/
theorem applyRewards_gatherBonus_nonneg (rws : List MilestoneReward)
    (hr : ∀ r ∈ rws, rewardAmountOK r) (b : MilestoneBonuses)
    (hb : 0 ≤ b.gatherBonus) : 0 ≤ (applyRewards b rws).1.gatherBonus := by
  unfold applyRewards
  suffices hgen : ∀ (acc : MilestoneBonuses × List String), 0 ≤ acc.1.gatherBonus →
      0 ≤ (rws.foldl (fun acc reward =>
        match reward with
        | MilestoneReward.gatherBonus amount message =>
          ({ gatherBonus := acc.1.gatherBonus + amount }, acc.2 ++ [message])
        | MilestoneReward.unlockUpgrade u message =>
          (acc.1, acc.2 ++ [message])) acc).1.gatherBonus by
    exact hgen (b, []) hb
  clear hb
  induction rws with
  | nil => intro acc hacc; exact hacc
  | cons r rws ih =>
    intro acc hacc
    rw [List.foldl_cons]
    refine ih (fun x hx => hr x (List.mem_cons_of_mem r hx)) _ ?_
    cases r with
    | gatherBonus amount message =>
      exact add_nonneg hacc (hr _ (List.mem_cons_self _ _))
    | unlockUpgrade u message => exact hacc

/-- An upgrade that passes the affordability check has a listed cost not
exceeding the current seed balance. -/
theorem canAfford_true_cost {s : GameState} {upgradeId : String} {lvl : Nat}
    (h : canAffordUpgrade s upgradeId = some true)
    (hlv : levelOf s.upgrades upgradeId = some lvl) :
    ∃ c, getUpgradeCost upgradeId lvl = some c ∧ c ≤ s.resources.seeds := by
  unfold canAffordUpgrade at h
  rw [hlv] at h
  dsimp only at h
  cases hc : getUpgradeCost upgradeId lvl with
  | none =>
    rw [hc] at h
    simp at h
  | some c =>
    rw [hc] at h
    by_cases hd : decide (s.resources.seeds ≥ c) = true
    · exact ⟨c, rfl, of_decide_eq_true hd⟩
    · rw [Bool.not_eq_true] at hd
      simp [hd] at h

/-- A successful purchase: debits no more than the balance, leaves the
planted counter, milestone log and bonuses untouched, and preserves
rarity exclusivity (the plot either stays or is extended with fresh
empty tiles). -/
theorem handleBuyUpgrade_facts (s : GameState) (upgradeId : String)
    (s' : GameState) (logs : List String)
    (h : handleBuyUpgrade s upgradeId = some (s', logs)) :
    (0 ≤ s.resources.seeds → 0 ≤ s'.resources.seeds) ∧
    s'.milestoneBonuses = s.milestoneBonuses ∧
    s'.totalTreesPlanted = s.totalTreesPlanted ∧
    (PlotOK s.plot → PlotOK s'.plot) ∧
    s'.loggedMilestones = s.loggedMilestones := by
  unfold handleBuyUpgrade at h
  cases hca : canAffordUpgrade s upgradeId with
  | none =>
    rw [hca] at h
    simp at h
  | some b =>
    rw [hca] at h
    cases b with
    | false =>
      simp only [Option.some.injEq, Prod.mk.injEq] at h
      obtain ⟨rfl, rfl⟩ := h
      exact ⟨fun hs => hs, rfl, rfl, fun hp => hp, rfl⟩
    | true =>
      cases hfu : findUpgrade upgradeId with
      | none =>
        cases hlv : levelOf s.upgrades upgradeId with
        | none =>
          rw [hfu, hlv] at h
          simp at h
        | some lvl =>
          rw [hfu, hlv] at h
          simp at h
      | some d =>
        cases hlv : levelOf s.upgrades upgradeId with
        | none =>
          rw [hfu, hlv] at h
          simp at h
        | some lvl =>
          rw [hfu, hlv] at h
          dsimp only at h
          obtain ⟨c, hc, hcle⟩ := canAfford_true_cost hca hlv
          simp only [Option.some.injEq, Prod.mk.injEq] at h
          obtain ⟨hs3, hlogs⟩ := h
          subst hs3
          refine ⟨fun _ => ?_, ?_, ?_, fun hp => ?_, ?_⟩
          · split <;> split <;>
              (dsimp only; rw [hc]; simp only [Option.getD_some]; exact sub_nonneg.mpr hcle)
          · split <;> split <;> rfl
          · split <;> split <;> rfl
          · split <;> split <;>
              first
                | exact hp
                | (refine PlotOK_append hp ?_
                   intro t ht
                   rcases List.mem_map.mp ht with ⟨i, hi, rfl⟩
                   simp [rarityOK])
          · split <;> split <;> rfl

set_option maxHeartbeats 1000000 in
/-- Player actions: keep seeds non-negative (given a non-negative gather
bonus), keep the gather bonus non-negative, bump the planted counter by
at most one, preserve rarity exclusivity, never clear a milestone-log
flag, and change the milestone bonuses only when a planting lands the
counter exactly on an unlogged milestone value, which it then logs. -/
theorem handleAction_facts (s : GameState) (action : String) (now : Nat) (rng : Rng) :
    (0 ≤ s.resources.seeds ∧ 0 ≤ s.milestoneBonuses.gatherBonus →
      0 ≤ (handleAction s action now rng).1.resources.seeds) ∧
    (0 ≤ s.milestoneBonuses.gatherBonus →
      0 ≤ (handleAction s action now rng).1.milestoneBonuses.gatherBonus) ∧
    ((handleAction s action now rng).1.totalTreesPlanted = s.totalTreesPlanted ∨
      (handleAction s action now rng).1.totalTreesPlanted = s.totalTreesPlanted + 1) ∧
    (PlotOK s.plot → PlotOK (handleAction s action now rng).1.plot) ∧
    (∀ k, lookupFlag s.loggedMilestones k = true →
      lookupFlag (handleAction s action now rng).1.loggedMilestones k = true) ∧
    ((handleAction s action now rng).1.milestoneBonuses ≠ s.milestoneBonuses →
      ∃ m, m ∈ PLANTING_MILESTONES ∧
        (handleAction s action now rng).1.totalTreesPlanted = m ∧
        lookupFlag s.loggedMilestones ("planted" ++ toString m) = false ∧
        lookupFlag (handleAction s action now rng).1.loggedMilestones
          ("planted" ++ toString m) = true) ∧
    (action ≠ "plantTree" →
      (handleAction s action now rng).1.totalTreesPlanted = s.totalTreesPlanted) := by
  unfold handleAction
  dsimp only
  by_cases ha1 : action = "gatherSeeds"
  · simp only [if_pos ha1]
    by_cases hc1 : s.upgrades.confettiCannon > 0
    · simp only [if_pos hc1]
      cases hr : rngNext rng with
      | mk q rngx =>
        dsimp only
        by_cases hc2 : q * 100 < getUpgradeEffect "confettiCannon" s.upgrades.confettiCannon
        · simp only [if_pos hc2]
          refine ⟨fun hsb => ?_, fun hb => hb, ?_, fun hp => hp, fun k hk => hk, ?_,
            fun _ => by trivial⟩
          · have h1 : (0:ℚ) ≤ s.resources.seeds + getUpgradeEffect "gloves" s.upgrades.gloves
                + getUpgradeEffect "sunCore" s.upgrades.sunCore
                + s.milestoneBonuses.gatherBonus :=
              add_nonneg (add_nonneg (add_nonneg hsb.1 (getUpgradeEffect_nonneg _ _))
                (getUpgradeEffect_nonneg _ _)) hsb.2
            exact add_nonneg h1 (by positivity)
          · exact Or.inl (by trivial)
          · intro hne
            exact absurd rfl hne
        · simp only [if_neg hc2]
          refine ⟨fun hsb => ?_, fun hb => hb, Or.inl (by trivial), fun hp => hp,
            fun k hk => hk, fun hne => absurd rfl hne, fun _ => by trivial⟩
          exact add_nonneg (add_nonneg (add_nonneg hsb.1 (getUpgradeEffect_nonneg _ _))
            (getUpgradeEffect_nonneg _ _)) hsb.2
    · simp only [if_neg hc1]
      refine ⟨fun hsb => ?_, fun hb => hb, Or.inl (by trivial), fun hp => hp,
        fun k hk => hk, fun hne => absurd rfl hne, fun _ => by trivial⟩
      exact add_nonneg (add_nonneg (add_nonneg hsb.1 (getUpgradeEffect_nonneg _ _))
        (getUpgradeEffect_nonneg _ _)) hsb.2
  · simp only [if_neg ha1]
    by_cases ha2 : action = "plantTree"
    · simp only [if_pos ha2]
      by_cases hg : s.plot.any (fun t => !t.hasTree) = true ∧
          (s.plot.filter (fun t => t.hasTree)).length < s.plot.length ∧
          s.resources.seeds ≥ calculatePlantingCost
            (s.plot.filter (fun t => t.hasTree)).length s.costs.tree s.upgrades.seedVault
      · simp only [if_pos hg]
        cases hr : rngNext rng with
        | mk qf rngx =>
          dsimp only
          have hplantit : PlotOK s.plot → PlotOK (updateFirstWhere (fun t => !t.hasTree)
              (fun t => if qf * 100 < getUpgradeEffect "fertilizer" s.upgrades.fertilizer then
                  scheduleRareExpiry now
                    { plantedTile t with isGolden := true, isDiamond := false }
                else plantedTile t) s.plot) := by
            intro hp
            refine PlotOK_updateFirstWhere ?_ hp
            intro t _
            split
            · apply rarityOK_scheduleRareExpiry
              simp [rarityOK]
            · exact rarityOK_plantedTile t
          cases hfind : PLANTING_MILESTONES.find? (fun m => m = s.totalTreesPlanted + 1) with
          | none =>
            simp only [hfind]
            exact ⟨fun hsb => sub_nonneg.mpr hg.2.2, fun hb => hb, Or.inr (by trivial),
              hplantit, fun k hk => hk, fun hne => absurd rfl hne,
              fun hne => absurd ha2 hne⟩
          | some m =>
            simp only [hfind]
            have hps := List.find?_some hfind
            have hm1 : m = s.totalTreesPlanted + 1 := by simpa using hps
            have hmem : m ∈ PLANTING_MILESTONES := List.mem_of_find?_eq_some hfind
            by_cases hflag : ¬ lookupFlag s.loggedMilestones ("planted" ++ toString m) = true
            · simp only [if_pos hflag]
              cases hrw : MILESTONE_REWARDS.lookup m with
              | none =>
                simp only [hrw]
                exact ⟨fun hsb => sub_nonneg.mpr hg.2.2, fun hb => hb, Or.inr (by trivial),
                  hplantit, fun k hk => lookupFlag_setFlag_mono _ hk,
                  fun hne => absurd rfl hne, fun hne => absurd ha2 hne⟩
              | some rws =>
                simp only [hrw]
                have hrok : ∀ r ∈ rws, rewardAmountOK r :=
                  milestone_rewards_amounts_ok (m, rws) (lookup_mem_of_eq_some hrw)
                refine ⟨fun hsb => sub_nonneg.mpr hg.2.2,
                  fun hb => applyRewards_gatherBonus_nonneg rws hrok _ hb,
                  Or.inr (by trivial), hplantit,
                  fun k hk => lookupFlag_setFlag_mono _ hk, fun hne => ?_,
                  fun hne => absurd ha2 hne⟩
                refine ⟨m, hmem, hm1.symm, ?_, lookupFlag_setFlag_self _ _⟩
                rw [Bool.not_eq_true] at hflag
                exact hflag
            · simp only [if_neg hflag]
              exact ⟨fun hsb => sub_nonneg.mpr hg.2.2, fun hb => hb, Or.inr (by trivial),
                hplantit, fun k hk => hk, fun hne => absurd rfl hne,
                fun hne => absurd ha2 hne⟩
      · simp only [if_neg hg]
        exact ⟨fun hsb => hsb.1, fun hb => hb, Or.inl (by trivial), fun hp => hp,
          fun k hk => hk, fun hne => absurd rfl hne, fun _ => by trivial⟩
    · simp only [if_neg ha2]
      by_cases ha3 : action = "clearWithered"
      · simp only [if_pos ha3]
        cases hfw : s.plot.find? (fun t => t.isWithered) with
        | some w =>
          simp only [hfw]
          by_cases hshv : s.upgrades.shovel > 0
          · simp only [if_pos hshv]
            refine ⟨fun hsb => ?_, fun hb => hb, Or.inl (by trivial), fun hp => ?_,
              fun k hk => hk, fun hne => absurd rfl hne, fun _ => by trivial⟩
            · apply add_nonneg hsb.1
              have hc0 : (0:ℚ) ≤ getUpgradeEffect "shovel" s.upgrades.shovel
                  + getUpgradeEffect "composter" s.upgrades.composter :=
                add_nonneg (getUpgradeEffect_nonneg _ _) (getUpgradeEffect_nonneg _ _)
              split
              · exact mul_nonneg hc0 (by norm_num)
              · split
                · exact mul_nonneg hc0 (by norm_num)
                · exact hc0
            · exact PlotOK_updateFirstWhere (fun t _ => rarityOK_clearedTile t) hp
          · simp only [if_neg hshv]
            exact ⟨fun hsb => hsb.1, fun hb => hb, Or.inl (by trivial),
              fun hp => PlotOK_updateFirstWhere (fun t _ => rarityOK_clearedTile t) hp,
              fun k hk => hk, fun hne => absurd rfl hne, fun _ => by trivial⟩
        | none =>
          simp only [hfw]
          exact ⟨fun hsb => hsb.1, fun hb => hb, Or.inl (by trivial), fun hp => hp,
            fun k hk => hk, fun hne => absurd rfl hne, fun _ => by trivial⟩
      · simp only [if_neg ha3]
        exact ⟨fun hsb => hsb.1, fun hb => hb, Or.inl (by trivial), fun hp => hp,
          fun k hk => hk, fun hne => absurd rfl hne, fun _ => by trivial⟩

/- ### C8, C9 — reachability invariants: non-negative seeds, exclusive rarity -/

instance (t : PlotTile) : Decidable (rarityOK t) := by
  unfold rarityOK
  infer_instance

instance (l : List PlotTile) : Decidable (PlotOK l) := by
  unfold PlotOK
  exact List.decidableBAll _ l

/-- The inductive invariant: non-negative seed balance, non-negative
permanent gather bonus, and rarity exclusivity across the plot. -/
def GameInv (s : GameState) : Prop :=
  0 ≤ s.resources.seeds ∧ 0 ≤ s.milestoneBonuses.gatherBonus ∧ PlotOK s.plot

instance (s : GameState) : Decidable (GameInv s) := by
  unfold GameInv
  infer_instance

theorem GameInv_initial : GameInv INITIAL_GAME_STATE := by
  with_unfolding_all decide

set_option maxHeartbeats 1000000 in
/-- Every step of the interaction loop preserves the invariant. -/
theorem GameInv_step (s : GameState) (op : Op) (h : GameInv s) : GameInv (applyOp s op) := by
  obtain ⟨hs, hb, hp⟩ := h
  cases op with
  | tick now rng =>
    show GameInv (gameTick s now rng).1
    obtain ⟨f1, f2, _, _, f5, _, _⟩ := gameTick_facts s now rng
    refine ⟨f1 hs, ?_, f5 hp⟩
    rw [f2]
    exact hb
  | act action now rng =>
    show GameInv (handleAction s action now rng).1
    obtain ⟨f1, f2, _, f4, _, _, _⟩ := handleAction_facts s action now rng
    exact ⟨f1 ⟨hs, hb⟩, f2 hb, f4 hp⟩
  | buyUp upgradeId =>
    show GameInv (match handleBuyUpgrade s upgradeId with
      | some (s', _) => s'
      | none => s)
    cases hbuy : handleBuyUpgrade s upgradeId with
    | none => exact ⟨hs, hb, hp⟩
    | some pr =>
      obtain ⟨s', logs⟩ := pr
      obtain ⟨f1, f2, _, f4, _⟩ := handleBuyUpgrade_facts s upgradeId s' logs hbuy
      refine ⟨f1 hs, ?_, f4 hp⟩
      rw [f2]
      exact hb

/-- The invariant holds in every reachable state. -/
theorem reachable_GameInv {s : GameState} (h : Reachable s) : GameInv s := by
  induction h with
  | init => exact GameInv_initial
  | step op hr ih => exact GameInv_step _ op ih

/-- C8: in every state reachable from the canonical initial state by any
sequence of ticks, actions and purchases, the seed balance is
non-negative — every debit (manual plant, auto planter, upgrade
purchase) is guarded by a sufficient-funds check, and every other
operation only credits non-negative amounts. -/
theorem C8_reachable_seeds_nonneg (s : GameState) (h : Reachable s) :
    0 ≤ s.resources.seeds :=
  (reachable_GameInv h).1

/-- C8 witness: the theorem applied to a concrete reachable state (one
manual plant from the initial state). -/
theorem C8_witness :
    0 ≤ (applyOp INITIAL_GAME_STATE (Op.act "plantTree" 0 [])).resources.seeds :=
  C8_reachable_seeds_nonneg _ (Reachable.step _ Reachable.init)

/-- C9: in every reachable state, no plot tile ever has both rarity
flags set — every writer of `isGolden`/`isDiamond` clears or leaves
cleared the other flag. -/
theorem C9_rarity_exclusive (s : GameState) (h : Reachable s) :
    ∀ t ∈ s.plot, ¬ (t.isGolden = true ∧ t.isDiamond = true) :=
  (reachable_GameInv h).2.2

/-- C9 witness: the theorem applied to a concrete reachable state (one
tick from the initial state). -/
theorem C9_witness : PlotOK (applyOp INITIAL_GAME_STATE (Op.tick 0 [])).plot :=
  C9_rarity_exclusive _ (Reachable.step _ Reachable.init)

/- ### C10 — the planted counter's writers -/

/-- C10: the auto-planter phase always leaves `totalTreesPlanted`
unchanged; a tick without the gnome-intern upgrade leaves it unchanged;
a tick changes it by at most one (the gnome phase being the only
writer); every non-plant action leaves it unchanged; and a purchase
leaves it unchanged — so only the manual plant action and the
gnome-intern automation ever advance milestone progress. -/
theorem C10_counter_frame :
    (∀ (s : GameState) (now : Nat) (rng : Rng),
      (autoPlanterPhase s now rng).1.totalTreesPlanted = s.totalTreesPlanted) ∧
    (∀ (s : GameState) (now : Nat) (rng : Rng), s.upgrades.gnomeInterns = 0 →
      (gameTick s now rng).1.totalTreesPlanted = s.totalTreesPlanted) ∧
    (∀ (s : GameState) (now : Nat) (rng : Rng),
      (gameTick s now rng).1.totalTreesPlanted = s.totalTreesPlanted ∨
      (gameTick s now rng).1.totalTreesPlanted = s.totalTreesPlanted + 1) ∧
    (∀ (s : GameState) (action : String) (now : Nat) (rng : Rng), action ≠ "plantTree" →
      (handleAction s action now rng).1.totalTreesPlanted = s.totalTreesPlanted) ∧
    (∀ (s : GameState) (upgradeId : String) (s' : GameState) (logs : List String),
      handleBuyUpgrade s upgradeId = some (s', logs) →
      s'.totalTreesPlanted = s.totalTreesPlanted) := by
  refine ⟨fun s now rng => (autoPlanterPhase_facts s now rng).2.2.1,
    fun s now rng h0 => (gameTick_facts s now rng).2.2.2.2.2.2 h0,
    fun s now rng => (gameTick_facts s now rng).2.2.1,
    fun s action now rng hne => (handleAction_facts s action now rng).2.2.2.2.2.2 hne,
    fun s upgradeId s' logs h => (handleBuyUpgrade_facts s upgradeId s' logs h).2.2.1⟩

/-- C10 witness: the frame conditions applied at the initial state. -/
theorem C10_witness :
    INITIAL_GAME_STATE.upgrades.gnomeInterns = 0 ∧
    (gameTick INITIAL_GAME_STATE 5 []).1.totalTreesPlanted
      = INITIAL_GAME_STATE.totalTreesPlanted ∧
    (autoPlanterPhase INITIAL_GAME_STATE 5 []).1.totalTreesPlanted
      = INITIAL_GAME_STATE.totalTreesPlanted :=
  ⟨rfl, C10_counter_frame.2.1 INITIAL_GAME_STATE 5 [] rfl,
    C10_counter_frame.1 INITIAL_GAME_STATE 5 []⟩

/- ### C2 — milestone idempotence: the 130-tree reward is skipped -/

/-- One simulation tick whose drawn randoms fire the `wiltBlight` event
(roll 0.001 < chance 0.002; 0.88 · 4.6 lands on `wiltBlight` in the
weighted walk over the ten triggerable events; 0.5 picks the only
living tile; sprinklers are absent so the tree withers). -/
def c2WiltTick : Op := Op.tick 0 [0.001, 0.88, 0.5]

/-- One simulation tick whose drawn randoms fire `wanderingMerchant`
(roll 0.001; on an all-empty plot 0.99 · 2.4 walks past the five other
triggerable events), granting `150 + ⌊1.5 · planted⌋` seeds and easing
the base planting cost. -/
def c2MerchTick : Op := Op.tick 0 [0.001, 0.99]

/-- Plant a tree, wither it with a blight tick, clear it: the counter
steps by one and the plot returns to its initial shape. -/
def c2Triple : List Op := [Op.act "plantTree" 0 [], c2WiltTick, Op.act "clearWithered" 0 []]

def c2Triples (n : Nat) : List Op := (List.replicate n c2Triple).join

def c2Chunk1 : List Op := c2Triples 4 ++ [c2MerchTick]
def c2Chunk2 : List Op := c2Triples 17 ++ [c2MerchTick]
def c2Chunk3 : List Op := c2Triples 23 ++ [c2MerchTick]
def c2Chunk4 : List Op := c2Triples 15
def c2Chunk5 : List Op := c2Triples 15 ++ [c2MerchTick]
def c2Chunk6 : List Op := c2Triples 22
def c2Chunk7 : List Op := c2Triples 22 ++ [c2MerchTick]
def c2Chunk8 : List Op := c2Triples 13

/-- Folding over a concatenation runs the two halves in sequence. -/
theorem runOps_append (s : GameState) (l1 l2 : List Op) :
    runOps s (l1 ++ l2) = runOps (runOps s l1) l2 := by
  simp [runOps, List.foldl_append]

/-- A checkpoint of the C2 trace: the plot is back to its initial
shape and only the listed scalar fields have moved. -/
def c2Mark (seeds tree : ℚ) (counter : Nat) (peak : ℚ)
    (logged : List (String × Bool)) : GameState :=
  { INITIAL_GAME_STATE with
      resources := { seeds := seeds },
      costs := { tree := tree },
      totalTreesPlanted := counter,
      peakSeeds := peak,
      loggedMilestones := logged,
      notifiedAvailable := [("gloves_0", true)] }

def c2S1 : GameState := c2Mark 156 9 4 156 [("planted1", true)]
def c2S2 : GameState := c2Mark 184 8 21 184 [("planted1", true)]
def c2S3 : GameState := c2Mark 216 7 44 216 [("planted1", true)]
def c2S4 : GameState := c2Mark 111 7 59 216 [("planted1", true)]
def c2S5 : GameState := c2Mark 267 6 74 267 [("planted1", true)]
def c2S6 : GameState := c2Mark 135 6 96 267 [("planted1", true)]
def c2S7 : GameState := c2Mark 330 5 118 330 [("planted1", true), ("planted100", true)]
def c2S8 : GameState := c2Mark 265 5 131 330 [("planted1", true), ("planted100", true)]

set_option maxRecDepth 10000 in
theorem c2_step1 : runOps INITIAL_GAME_STATE c2Chunk1 = c2S1 := by
  with_unfolding_all decide

set_option maxRecDepth 10000 in
theorem c2_step2 : runOps c2S1 c2Chunk2 = c2S2 := by
  with_unfolding_all decide

set_option maxRecDepth 10000 in
theorem c2_step3 : runOps c2S2 c2Chunk3 = c2S3 := by
  with_unfolding_all decide

set_option maxRecDepth 10000 in
theorem c2_step4 : runOps c2S3 c2Chunk4 = c2S4 := by
  with_unfolding_all decide

set_option maxRecDepth 10000 in
theorem c2_step5 : runOps c2S4 c2Chunk5 = c2S5 := by
  with_unfolding_all decide

set_option maxRecDepth 10000 in
theorem c2_step6 : runOps c2S5 c2Chunk6 = c2S6 := by
  with_unfolding_all decide

set_option maxRecDepth 10000 in
theorem c2_step7 : runOps c2S6 c2Chunk7 = c2S7 := by
  with_unfolding_all decide

set_option maxRecDepth 10000 in
theorem c2_step8 : runOps c2S7 c2Chunk8 = c2S8 := by
  with_unfolding_all decide

/-- The 398-step interaction trace: 131 plant–blight–clear rounds funded
by five merchant events.  The planted counter passes 130 — a value with
a reward entry but absent from `PLANTING_MILESTONES`. -/
def c2AllOps : List Op :=
  c2Chunk1 ++ (c2Chunk2 ++ (c2Chunk3 ++ (c2Chunk4 ++ (c2Chunk5 ++ (c2Chunk6 ++
    (c2Chunk7 ++ c2Chunk8))))))

theorem c2_trace : runOps INITIAL_GAME_STATE c2AllOps = c2S8 := by
  unfold c2AllOps
  simp only [runOps_append]
  rw [c2_step1, c2_step2, c2_step3, c2_step4, c2_step5, c2_step6, c2_step7, c2_step8]

/-- The final state of the C2 trace is reachable. -/
theorem c2_final_reachable : Reachable c2S8 := by
  rw [← c2_trace]
  exact reachable_runOps Reachable.init c2AllOps

/-- C2 counterexample: the reachable end state of the trace has planted
131 trees — the counter landed exactly on 130 and moved past it — yet
the 130-entry of `MILESTONE_REWARDS` was never applied: its log flag is
unset and the permanent gather bonus it grants is still zero.  The
reward table is keyed by values (130, 720, 850, 3500) that the planting
code never consults, because `handleAction` looks milestones up in
`PLANTING_MILESTONES`, which does not contain them. -/
theorem C2_counterexample_milestone130_skipped :
    Reachable c2S8 ∧
    (MILESTONE_REWARDS.lookup 130).isSome = true ∧
    c2S8.totalTreesPlanted = 131 ∧
    lookupFlag c2S8.loggedMilestones "planted130" = false ∧
    c2S8.milestoneBonuses.gatherBonus = 0 :=
  ⟨c2_final_reachable, by with_unfolding_all decide, by with_unfolding_all decide,
    by with_unfolding_all decide, by with_unfolding_all decide⟩

/-- `applyOp` on a tick step (definitional). -/
theorem applyOp_tick (s : GameState) (now : Nat) (rng : Rng) :
    applyOp s (Op.tick now rng) = (gameTick s now rng).1 := rfl

/-- `applyOp` on an action step (definitional). -/
theorem applyOp_act (s : GameState) (action : String) (now : Nat) (rng : Rng) :
    applyOp s (Op.act action now rng) = (handleAction s action now rng).1 := rfl

/-- `applyOp` on a purchase step (definitional). -/
theorem applyOp_buy (s : GameState) (upgradeId : String) :
    applyOp s (Op.buyUp upgradeId) =
      (match handleBuyUpgrade s upgradeId with
        | some (s', _) => s'
        | none => s) := rfl

/-- C2 (amended): milestone rewards are applied at most once — no step
of the interaction loop ever clears a milestone-log flag, and the
milestone bonuses change only when a step lands the planted counter
exactly on a member of `PLANTING_MILESTONES` whose flag was unset, and
that step sets the flag.  (Rewards can however be skipped: see the
counterexample, where the counter crosses the reward key 130, which is
missing from `PLANTING_MILESTONES`.) -/
theorem C2_milestone_applied_at_most_once :
    (∀ (s : GameState) (op : Op) (k : String),
      lookupFlag s.loggedMilestones k = true →
      lookupFlag (applyOp s op).loggedMilestones k = true) ∧
    (∀ (s : GameState) (op : Op),
      (applyOp s op).milestoneBonuses ≠ s.milestoneBonuses →
      ∃ m, m ∈ PLANTING_MILESTONES ∧
        (applyOp s op).totalTreesPlanted = m ∧
        lookupFlag s.loggedMilestones ("planted" ++ toString m) = false ∧
        lookupFlag (applyOp s op).loggedMilestones ("planted" ++ toString m) = true) := by
  constructor
  · intro s op k hk
    cases op with
    | tick now rng =>
      rw [applyOp_tick]
      exact (gameTick_facts s now rng).2.2.2.2.2.1 k hk
    | act action now rng =>
      rw [applyOp_act]
      exact (handleAction_facts s action now rng).2.2.2.2.1 k hk
    | buyUp upgradeId =>
      rw [applyOp_buy]
      cases hbuy : handleBuyUpgrade s upgradeId with
      | none => exact hk
      | some pr =>
        obtain ⟨s', logs⟩ := pr
        have hl := (handleBuyUpgrade_facts s upgradeId s' logs hbuy).2.2.2.2
        rw [hl]
        exact hk
  · intro s op hne
    cases op with
    | tick now rng =>
      rw [applyOp_tick] at hne
      exact absurd (gameTick_facts s now rng).2.1 hne
    | act action now rng =>
      rw [applyOp_act] at hne ⊢
      exact (handleAction_facts s action now rng).2.2.2.2.2.1 hne
    | buyUp upgradeId =>
      rw [applyOp_buy] at hne
      exfalso
      apply hne
      cases hbuy : handleBuyUpgrade s upgradeId with
      | none => rfl
      | some pr =>
        obtain ⟨s', logs⟩ := pr
        exact (handleBuyUpgrade_facts s upgradeId s' logs hbuy).2.1

/-- C2 witness: at the first checkpoint of the trace the `planted1`
flag is set, and a further tick keeps it set. -/
theorem C2_witness :
    lookupFlag (applyOp c2S1 (Op.tick 0 [])).loggedMilestones "planted1" = true :=
  C2_milestone_applied_at_most_once.1 c2S1 (Op.tick 0 []) "planted1"
    (by with_unfolding_all decide)
